import Mathlib

/-!
Verification of the windowed GERP/VCF "derived alleles" pipeline
(`04_gerp_derived_alleles.py` and its near-duplicate `gerp_derived_alleles.py`).

The two scripts load a conservation-score table (GERP) and a variant-call
table (VCF) restricted to a genomic window, join them on (contig, position),
and annotate each sample with a derived-allele count.  The tables live in a
columnar dataframe runtime (polars); we embed the dataframes shallowly as
lists of rows of `Cell`s together with a list of column names, and embed the
dataframe operations used by the scripts (filter, rename, str.split,
str.contains, str.count_matches, when/then/otherwise, left join, drop_nulls,
drop) with their polars semantics:

* a column has a single dtype; applying a `str.*` operation to a non-string
  (e.g. Float64) column is a fatal dtype error;
* `==` between a string column and a numeric column is a fatal dtype error,
  `==` against null is null, and float NaN compares unequal to everything;
* in `when/then` chains a null condition is not taken and evaluation falls
  through to the following branch or to `otherwise`;
* `drop_nulls` drops nulls but keeps NaN;
* a left join emits one row per matching right row (several on duplicate
  right keys) and a null-filled row when there is no match, and coalesces
  the key columns; joining keys of different dtypes is a fatal error;
* `drop` / `drop_in_place` / column selection of an absent column and a
  rename that produces duplicate column names are fatal errors;
* CSV reading with no data rows is a fatal error (polars `NoDataError`),
  and a column whose fields are all integers is read as an integer column,
  any other column as a string column.

Fallible steps return `Except PErr`; a Python exception (unbound
`vcf_names`, `list.index` failure) is also a `PErr`.
-/

namespace PopGen

/-- A dataframe cell.  `str`/`int` come from CSV parsing, `fnat` is a float
holding a nonnegative integer (the u32 result of `str.count_matches` cast
into a float column), `fraw` is a float carried verbatim from the input text
(GERP scores, which the pipeline never computes with), `nan` is float NaN
and `null` is a missing value. -/
inductive Cell where
  | str (s : String)
  | int (n : Int)
  | fnat (n : Nat)
  | fraw (s : String)
  | nan
  | null
deriving DecidableEq, Repr

/-- Fatal errors of the pipeline: Python exceptions and polars errors. -/
inductive PErr where
  | nameNotDefined
  | valueError (what : String)
  | noData
  | columnNotFound (col : String)
  | duplicateColumn
  | schemaMismatch (what : String)
  | raggedData
deriving DecidableEq, Repr

deriving instance DecidableEq for Except

/-- Is the cell of float dtype? -/
def Cell.isFloat : Cell → Bool
  | .fnat _ => true
  | .fraw _ => true
  | .nan => true
  | _ => false

/-- A row of the GERP score table, read with the fixed schema
(String, Int64, String, Float64); `anc` (`ancestral_state`) and `score`
(`gerp_score`) are cells so that the NaN sentinel values can inhabit them. -/
structure GerpRow where
  chrom : String
  pos : Int
  anc : Cell
  score : Cell
deriving DecidableEq, Repr

/-- Model of `read_gerp_windows`: filter the score table to contig `chrom` and
positions in `[start, endPos]` (polars `is_between` is inclusive on both
ends); if nothing matches, return the single NaN sentinel row at
`POS = start`.  The filter keeps the file order of the rows. -/
def read_gerp_windows (rows : List GerpRow) (chrom : String)
    (start endPos : Int) : List GerpRow :=
  let df := rows.filter fun r =>
    decide (r.chrom = chrom ∧ start ≤ r.pos ∧ r.pos ≤ endPos)
  if df.isEmpty then [⟨chrom, start, .nan, .nan⟩] else df

/-- Count the non-overlapping occurrences of pattern `p` in the char list
(leftmost-first), as `str.count_matches` does for a literal pattern.  The
recursion consumes at least one character per step, so a fuel equal to the
length of the list (structural, hence kernel-computable) is sufficient. -/
def countOccAux (p : List Char) : Nat → List Char → Nat
  | 0, _ => 0
  | _, [] => 0
  | fuel + 1, c :: rest =>
    if p.isPrefixOf (c :: rest) then
      1 + countOccAux p fuel (rest.drop (p.length - 1))
    else countOccAux p fuel rest

/-- Occurrences of `p` as a substring of `s`, non-overlapping.  The pipeline
only ever calls this with the patterns `"1"` and `"0"`, for which the regex
of `str.count_matches` is a literal one-character match. -/
def countOcc (s p : String) : Nat := countOccAux p.data s.data.length s.data

/-- A VCF-side dataframe: named columns and rows of cells. -/
structure DF where
  cols : List String
  rows : List (List Cell)
deriving DecidableEq, Repr

/-- Does the string contain the character?  (Kernel-computable stand-in for
`String.contains`, which is defined by a position loop that does not
reduce.) -/
def strHasChar (s : String) (c : Char) : Bool := s.data.contains c

/-- Split a character list on every occurrence of `sep`, keeping empty
groups — Python `str.split(sep)` for a one-character separator. -/
def splitOnCharAux (sep : Char) : List Char → List (List Char)
  | [] => [[]]
  | c :: rest =>
    let r := splitOnCharAux sep rest
    if c == sep then [] :: r
    else
      match r with
      | [] => [[c]]
      | h :: t => (c :: h) :: t

/-- Split a string on a one-character separator (kernel-computable
equivalent of `String.splitOn` for these separators). -/
def splitStr (s : String) (sep : Char) : List String :=
  (splitOnCharAux sep s.data).map String.mk

/-- Decimal value of a nonempty all-digit character list. -/
def parseNatDigits (ds : List Char) : Option Nat :=
  if !ds.isEmpty && ds.all (fun c => c.isDigit) then
    some (ds.foldl (fun n c => 10 * n + (c.toNat - 48)) 0)
  else none

/-- Integer parsing — an optional leading '-' followed by digits — matching
what the CSV reader accepts as an integer field. -/
def toIntQ (s : String) : Option Int :=
  match s.data with
  | [] => none
  | c :: cs =>
    if c == '-' then (parseNatDigits cs).map (fun n => -(n : Int))
    else (parseNatDigits (c :: cs)).map (fun n => (n : Int))

/-- Model of `x.split('\n')[0] if '\n' in x else x`. -/
def stripNewline (x : String) : String :=
  if strHasChar x '\n' then (splitStr x '\n').headD x else x

/-- Model of the inner `get_names`: find the first line that starts with
"#CHROM", split it on tabs, and strip each field from its first newline on.
When no line starts with "#CHROM", the local `vcf_names` is never assigned
and Python raises when it is returned. -/
def get_names (lines : List String) : Except PErr (List String) :=
  match lines.find? (fun l => "#CHROM".data.isPrefixOf l.data) with
  | none => .error .nameNotDefined
  | some l => .ok ((splitStr l '\t').map stripNewline)

/-- Does the field parse as an integer? -/
def isIntString (s : String) : Bool := (toIntQ s).isSome

/-- The data lines with their fields: `comment_prefix='#'` skips every line
starting with '#', and the tab separator splits the rest (the line
terminator is not part of the last field). -/
def csvFields (lines : List String) : List (List String) :=
  (lines.filter fun l => !("#".data.isPrefixOf l.data)).map
    fun l => splitStr (stripNewline l) '\t' 

/-- Is column `j` inferred as an integer column?  (polars dtype inference,
restricted to the dtypes these inputs produce: a column all of whose fields
parse as integers is Int64, any other column is String.) -/
def colIsInt (fields : List (List String)) (j : Nat) : Bool :=
  fields.all fun r => isIntString (r.getD j "")

/-- Type one field according to the column's inferred dtype. -/
def typeCell (isInt : Bool) (s : String) : Cell :=
  if isInt then (match toIntQ s with | some n => .int n | none => .null)
  else .str s

/-- Model of `pl.read_csv(..., comment_prefix='#', separator='\t',
has_header=False)`: the column count and the typed rows; an input with no
data rows is a `NoDataError` and ragged rows are a parse error. -/
def read_csv (lines : List String) : Except PErr (Nat × List (List Cell)) :=
  let fields := csvFields lines
  match fields with
  | [] => .error .noData
  | r0 :: _ =>
    let n := r0.length
    if fields.all (fun r => decide (r.length = n)) then
      .ok (n, fields.map fun r =>
        (List.range n).map fun j => typeCell (colIsInt fields j) (r.getD j ""))
    else .error .raggedData

/-- Evaluate the window filter
`(col ci == chrom) & (col pi).is_between(start, endPos)` (inclusive bounds)
and keep the matching rows.  Column `ci` must be a string column and column
`pi` an integer column; otherwise the comparison with the string / integer
literals has no supertype and is a dtype error. -/
def filterAt (ci pIdx : Nat) (rows : List (List Cell)) (chrom : String)
    (start endPos : Int) : Except PErr (List (List Cell)) :=
  if rows.all (fun r => match r.getD ci .null with
      | .str _ => true | .null => true | _ => false) then
    if rows.all (fun r => match r.getD pIdx .null with
        | .int _ => true | .null => true | _ => false) then
      .ok (rows.filter fun r =>
        r.getD ci .null == .str chrom &&
        (match r.getD pIdx .null with
         | .int p => decide (start ≤ p ∧ p ≤ endPos)
         | _ => false))
    else .error (.schemaMismatch "is_between on a non-integer column")
  else .error (.schemaMismatch "eq with a string literal on a non-string column")

/-- Model of `df.rename(dict(zip(cols, names)))` where `cols` are the actual
column names `column_1 .. column_n`: the i-th column is renamed to `names[i]`
when that entry exists; a rename that produces duplicate column names is a
polars `DuplicateError`. -/
def renameCols (n : Nat) (names : List String) : Except PErr (List String) :=
  let renamed := (List.range n).map fun i =>
    names.getD i ("column_" ++ toString (i + 1))
  if renamed.Nodup then .ok renamed else .error .duplicateColumn

/-- Model of `pl.col(x).str.split(':').list.first()` on one cell: the prefix
of the call field before its first ':'.  Null passes through. -/
def splitFirstColon : Cell → Cell
  | .str s => .str ((splitStr s ':').headD s)
  | c => c

/-- Apply the genotype normalization to the column named `x` (first match by
name); the column must exist and must be a string column. -/
def applySplit (df : DF) (x : String) : Except PErr DF :=
  match df.cols.findIdx? (· == x) with
  | none => .error (.columnNotFound x)
  | some j =>
    if df.rows.all (fun r => match r.getD j .null with
        | .str _ => true | .null => true | _ => false) then
      .ok ⟨df.cols, df.rows.map fun r => r.set j (splitFirstColon (r.getD j .null))⟩
    else .error (.schemaMismatch "str.split on a non-string column")

/-- Drop the column named `x`; polars raises when it does not exist
(both for `df.drop([...])` and for `df.drop_in_place(x)`). -/
def dropCol (df : DF) (x : String) : Except PErr DF :=
  match df.cols.findIdx? (· == x) with
  | none => .error (.columnNotFound x)
  | some j => .ok ⟨df.cols.eraseIdx j, df.rows.map fun r => r.eraseIdx j⟩

/-- Drop a list of columns, left to right. -/
def dropCols (df : DF) (xs : List String) : Except PErr DF :=
  xs.foldlM dropCol df

/-- Python dict insertion: overwrite the value in place when the key exists,
append otherwise. -/
def dictInsert (l : List (String × Cell)) (k : String) (v : Cell) :
    List (String × Cell) :=
  if l.any (fun p => p.1 == k) then
    l.map fun p => if p.1 == k then (k, v) else p
  else l ++ [(k, v)]

/-- The empty-window sentinel of `read_vcf_windows`:
`d1 = {"#CHROM": chrom, 'POS': start}` then
`d1.update({c: float("nan") for c in names[2:]})`, turned into a one-row
dataframe.  Note that `names[2:]` is the full discovered header from the
third column on — including ID, QUAL, FILTER, INFO and FORMAT, which the
non-empty branch drops — and that every updated value is float NaN. -/
def sentinelVcf (chrom : String) (start : Int) (names : List String) : DF :=
  let d1 := (names.drop 2).foldl (fun d c => dictInsert d c .nan)
    [("#CHROM", Cell.str chrom), ("POS", Cell.int start)]
  ⟨d1.map Prod.fst, [d1.map Prod.snd]⟩

/-- Column index of the first column named `x`; polars raises a
`ColumnNotFoundError` otherwise. -/
def findCol (cols : List String) (x : String) : Except PErr Nat :=
  match cols.findIdx? (· == x) with
  | none => .error (.columnNotFound x)
  | some i => .ok i

/-- Model of Python `list.index(x)` over the header names: the position of
the first occurrence, or the given error when absent. -/
def indexOfErr (names : List String) (x : String) (e : PErr) :
    Except PErr Nat :=
  match names.findIdx? (· == x) with
  | none => .error e
  | some i => .ok i

namespace S04

/-- Model of `read_vcf_windows` of `04_gerp_derived_alleles.py`.  The gzip
flag only selects the transport (gzip.open / read_csv versus open /
scan_csv-collect); both branches parse identically and filter on the
physical first and second columns (`column_1`, `column_2`) before the
rename. -/
def read_vcf_windows (lines : List String) (chrom : String)
    (start endPos : Int) (_gzip : Bool) : Except PErr DF := do
  let names ← get_names lines
  let fmtIdx ← indexOfErr names "FORMAT" (.valueError "FORMAT is not in list")
  let inds := names.drop (fmtIdx + 1)
  let nr ← read_csv lines
  if nr.1 < 2 then
    .error (.columnNotFound (if nr.1 < 1 then "column_1" else "column_2"))
  else do
    let rows1 ← filterAt 0 1 nr.2 chrom start endPos
    let cols1 ← renameCols nr.1 names
    let df ← inds.foldlM applySplit ⟨cols1, rows1⟩
    let df ← dropCols df ["ID", "QUAL", "FILTER", "INFO", "FORMAT"]
    if df.rows.isEmpty then .ok (sentinelVcf chrom start names) else .ok df

end S04

namespace SGDA

/-- Model of `read_vcf_windows` of `gerp_derived_alleles.py`: the same load,
but the rename happens before the filter and the window filter selects the
columns *named* `#CHROM` and `POS` in the renamed header; the FORMAT pivot
is located after the filter. -/
def read_vcf_windows (lines : List String) (chrom : String)
    (start endPos : Int) (_gzip : Bool) : Except PErr DF := do
  let names ← get_names lines
  let nr ← read_csv lines
  let cols1 ← renameCols nr.1 names
  let ci ← findCol cols1 "#CHROM"
  let pIdx ← findCol cols1 "POS"
  let rows1 ← filterAt ci pIdx nr.2 chrom start endPos
  let fmtIdx ← indexOfErr names "FORMAT" (.valueError "FORMAT is not in list")
  let inds := names.drop (fmtIdx + 1)
  let df ← inds.foldlM applySplit ⟨cols1, rows1⟩
  let df ← dropCols df ["ID", "QUAL", "FILTER", "INFO", "FORMAT"]
  if df.rows.isEmpty then .ok (sentinelVcf chrom start names) else .ok df

end SGDA

/-- Rowwise evaluation of a columnar expression: apply `f` to every row,
stopping at the first fatal error. -/
def mapME {α β : Type} (f : α → Except PErr β) : List α → Except PErr (List β)
  | [] => .ok []
  | a :: l => do
    let b ← f a
    let l' ← mapME f l
    pure (b :: l')

/-- Polars `==` between two cells, decided by the column dtypes: null
propagates, string compares with string, the numeric dtypes compare with
each other (float NaN is unequal to everything), and string against a
numeric dtype has no supertype — a fatal schema error.  `fraw` cells (score
text) are never compared by the pipeline; they are given a textual equality
here only to keep the function total. -/
def cellEqE : Cell → Cell → Except PErr (Option Bool)
  | .null, _ => .ok none
  | _, .null => .ok none
  | .str a, .str b => .ok (some (a == b))
  | .str _, _ => .error (.schemaMismatch "eq between str and numeric dtypes")
  | _, .str _ => .error (.schemaMismatch "eq between str and numeric dtypes")
  | .int a, .int b => .ok (some (a == b))
  | .nan, _ => .ok (some false)
  | _, .nan => .ok (some false)
  | .fnat a, .fnat b => .ok (some (a == b))
  | .fnat a, .int b => .ok (some ((a : Int) == b))
  | .int a, .fnat b => .ok (some (a == (b : Int)))
  | .fraw a, .fraw b => .ok (some (a == b))
  | .fraw _, .fnat _ => .ok (some false)
  | .fnat _, .fraw _ => .ok (some false)
  | .fraw _, .int _ => .ok (some false)
  | .int _, .fraw _ => .ok (some false)

/-- Model of `pl.col(x).str.contains(r'\.')` on one cell: the regex matches
a literal dot; null in, null out; a non-string column is a dtype error. -/
def strContainsDot : Cell → Except PErr (Option Bool)
  | .str s => .ok (some (strHasChar s '.'))
  | .null => .ok none
  | _ => .error (.schemaMismatch "str.contains on a non-string column")

/-- Model of `pl.col(x).str.count_matches(pl.col('num_ancestral'))` on one
cell with a per-row pattern: null in either operand propagates; both must be
of string dtype; the u32 count lands in a float column (the branch dtype when
mixed with the NaN branches). -/
def countMatchesE : Cell → Cell → Except PErr Cell
  | .str s, .str p => .ok (.fnat (countOcc s p))
  | .null, .str _ => .ok .null
  | .str _, .null => .ok .null
  | .null, .null => .ok .null
  | _, _ => .error (.schemaMismatch "str.count_matches on a non-string column")

/-- The reference-match indicator, per row:
`pl.when(col('ancestral_state') == col('REF')).then(lit('1')).otherwise(lit('0'))`.
A null condition is not taken and falls through to the otherwise branch. -/
def numAncestralCell (anc ref : Cell) : Except PErr Cell := do
  let b ← cellEqE anc ref
  pure (if b = some true then .str "1" else .str "0")

/-- The per-sample `when/then` chain of the annotator, evaluated on one row:
`token` is the genotype cell of the sample, `anc` is `ancestral_state` and
`m` is `num_ancestral`.  All four sub-expressions are evaluated first
(polars evaluates every branch of a when/then chain over the whole column,
so a dtype error in any branch is fatal even when an earlier condition
matches), then the first true condition selects the result; null conditions
fall through. -/
def derivedExpr (anc m token : Cell) : Except PErr Cell := do
  let c1 ← strContainsDot token
  let c2 ← cellEqE anc (.str "N")
  let c3 := token == Cell.null
  let v ← countMatchesE token m
  pure (if c1 = some true then .nan
        else if c2 = some true then .nan
        else if c3 then .nan
        else v)

/-- Model of `df_gerp.join(df_vcf, on=['#CHROM','POS'], how='left')` followed
by `.drop_nulls(pl.col('REF'))`.  The left join emits, per score row, one
output row per genotype row with the same (contig, position) key — several
on duplicate right keys — or a single null-filled row when there is none,
and coalesces the key columns; the right key columns must have the dtypes of
the left key columns (String, Int64).  (Name collisions between left and
right non-key columns, which polars would disambiguate with a `_right`
suffix, do not occur for the headers the pipeline accepts and are left
unsuffixed here.) -/
def joinRowsFor (vcf : DF) (ci pIdx : Nat) (restIdx : List Nat)
    (g : GerpRow) : List (List Cell) :=
  let ms := vcf.rows.filter fun r =>
    r.getD ci .null == Cell.str g.chrom && r.getD pIdx .null == Cell.int g.pos
  if ms.isEmpty then
    [[Cell.str g.chrom, Cell.int g.pos, g.anc, g.score] ++
      restIdx.map fun _ => Cell.null]
  else ms.map fun r =>
    [Cell.str g.chrom, Cell.int g.pos, g.anc, g.score] ++
      restIdx.map fun j => r.getD j .null

def leftJoinDropNulls (gerp : List GerpRow) (vcf : DF) : Except PErr DF := do
  let ci ← findCol vcf.cols "#CHROM"
  let pIdx ← findCol vcf.cols "POS"
  if vcf.rows.all (fun r => match r.getD ci .null with
      | .str _ => true | .null => true | _ => false) then
    if vcf.rows.all (fun r => match r.getD pIdx .null with
        | .int _ => true | .null => true | _ => false) then
      let restIdx := (List.range vcf.cols.length).filter fun j =>
        j != ci && j != pIdx
      let cols := ["#CHROM", "POS", "ancestral_state", "gerp_score"] ++
        restIdx.map fun j => vcf.cols.getD j ""
      let ri ← findCol cols "REF"
      .ok ⟨cols, (gerp.flatMap (joinRowsFor vcf ci pIdx restIdx)).filter
        fun r => !(r.getD ri .null == Cell.null)⟩
    else .error (.schemaMismatch "join keys have different dtypes")
  else .error (.schemaMismatch "join keys have different dtypes")

/-- Add the temporary indicator column `num_ancestral`. -/
def addNumAncestral (df : DF) : Except PErr DF := do
  let ai ← findCol df.cols "ancestral_state"
  let ri ← findCol df.cols "REF"
  let rows ← mapME (fun r => do
    let v ← numAncestralCell (r.getD ai .null) (r.getD ri .null)
    .ok (r ++ [v])) df.rows
  .ok ⟨df.cols ++ ["num_ancestral"], rows⟩

/-- Add the `x_no_derived_alleles` column for the sample column `x` (one
member of the `with_columns` generator; the generator's columns are
independent, so evaluating them left to right agrees with the simultaneous
`with_columns`). -/
def addDerived (df : DF) (x : String) : Except PErr DF := do
  let ai ← findCol df.cols "ancestral_state"
  let ni ← findCol df.cols "num_ancestral"
  let xi ← findCol df.cols x
  let rows ← mapME (fun r => do
    let v ← derivedExpr (r.getD ai .null) (r.getD ni .null) (r.getD xi .null)
    .ok (r ++ [v])) df.rows
  .ok ⟨df.cols ++ [x ++ "_no_derived_alleles"], rows⟩

/-- The body of `count_derived_alleles` after the two loads — identical in
both scripts (their drop lists have the same columns in the same order):
locate the sample columns after 'ALT', left-join and drop null-REF rows,
build `num_ancestral`, add one `_no_derived_alleles` column per sample
column, and drop the genotype, indicator, REF and ALT columns in place. -/
def annotate (df_gerp : List GerpRow) (df_vcf : DF) : Except PErr DF := do
  let altIdx ← indexOfErr df_vcf.cols "ALT" (.valueError "ALT is not in list")
  let inds := df_vcf.cols.drop (altIdx + 1)
  let df ← leftJoinDropNulls df_gerp df_vcf
  let df ← addNumAncestral df
  let df ← inds.foldlM addDerived df
  dropCols df (inds ++ ["num_ancestral", "REF", "ALT"])

namespace S04

/-- Model of `count_derived_alleles` of `04_gerp_derived_alleles.py`. -/
def count_derived_alleles (gerpRows : List GerpRow) (vcfLines : List String)
    (chrom : String) (start endPos : Int) (gzip : Bool) : Except PErr DF := do
  let df_gerp := read_gerp_windows gerpRows chrom start endPos
  let df_vcf ← read_vcf_windows vcfLines chrom start endPos gzip
  annotate df_gerp df_vcf

end S04

namespace SGDA

/-- Model of `count_derived_alleles` of `gerp_derived_alleles.py`. -/
def count_derived_alleles (gerpRows : List GerpRow) (vcfLines : List String)
    (chrom : String) (start endPos : Int) (gzip : Bool) : Except PErr DF := do
  let df_gerp := read_gerp_windows gerpRows chrom start endPos
  let df_vcf ← read_vcf_windows vcfLines chrom start endPos gzip
  annotate df_gerp df_vcf

end SGDA

/-- Serialization of one cell as
`write_csv(separator='\t', null_value='NaN')` renders it. -/
def cellOut : Cell → String
  | .str s => s
  | .int n => toString n
  | .fnat n => toString n ++ ".0"
  | .fraw s => s
  | .nan => "NaN"
  | .null => "NaN"

/-- Serialization of the annotated table, tab-separated with a header row. -/
def writeCsv (df : DF) : String :=
  String.intercalate "\t" df.cols ++ "\n" ++
    String.join (df.rows.map fun r => String.intercalate "\t" (r.map cellOut) ++ "\n")

/-- The `__main__` data path of `04_gerp_derived_alleles.py`: compute the
annotated window and serialize it — the bytes written to the output file. -/
def pipeline_output (gerpRows : List GerpRow) (vcfLines : List String)
    (chrom : String) (start endPos : Int) (gzip : Bool) : Except PErr String :=
  (S04.count_derived_alleles gerpRows vcfLines chrom start endPos gzip).map writeCsv

/-- The standard genotype-source header prefix: the nine fixed VCF columns
before the per-sample columns. -/
def std9 : List String :=
  ["#CHROM", "POS", "ID", "REF", "ALT", "QUAL", "FILTER", "INFO", "FORMAT"]

/-- Does the genotype table have a row whose (contig, position) key — read
from the columns named `#CHROM` and `POS`, as the join reads them — equals
`(c, p)`? -/
def vcfHasKey (vcf : DF) (c : String) (p : Int) : Bool :=
  match vcf.cols.findIdx? (· == "#CHROM"), vcf.cols.findIdx? (· == "POS") with
  | some ci, some pIdx => vcf.rows.any fun r =>
      r.getD ci .null == Cell.str c && r.getD pIdx .null == Cell.int p
  | _, _ => false

/-- Invariant carried through the annotator: the first two columns are the
join keys, and every row is keyed by a score row whose (contig, position)
key occurs in the genotype table. -/
def Keyed (gerp : List GerpRow) (vcf : DF) (df : DF) : Prop :=
  (∃ t, df.cols = "#CHROM" :: "POS" :: t) ∧
  ∀ r ∈ df.rows, ∃ g ∈ gerp,
    vcfHasKey vcf g.chrom g.pos = true ∧
    r.getD 0 .null = .str g.chrom ∧ r.getD 1 .null = .int g.pos

/-! ### Helper lemmas about the `Except` monad -/

theorem except_bind_ok {α β : Type} (a : α) (f : α → Except PErr β) :
    (Except.ok a >>= f) = f a := rfl

theorem except_bind_error {α β : Type} (e : PErr) (f : α → Except PErr β) :
    ((Except.error e : Except PErr α) >>= f) = Except.error e := rfl

theorem bind_eq_ok {α β : Type} {m : Except PErr α} {f : α → Except PErr β}
    {b : β} (h : (m >>= f) = .ok b) : ∃ a, m = .ok a ∧ f a = .ok b := by
  cases m with
  | error e => exact Except.noConfusion h
  | ok a => exact ⟨a, rfl, h⟩


/-! ### List infrastructure -/

theorem getD_map_const {α β : Type} (l : List α) (c d : β) (i : Nat) :
    (l.map fun _ => c).getD i d = if i < l.length then c else d := by
  induction l generalizing i with
  | nil => simp
  | cons a t ih =>
    cases i with
    | zero => simp
    | succ j =>
      simp only [List.map_cons, List.getD_cons_succ, ih, List.length_cons]
      simp [Nat.add_lt_add_iff_right]

theorem getD_map_const_same {α : Type} (l : List α) (c : Cell) (i : Nat) :
    (l.map fun _ => c).getD i c = c := by
  rw [getD_map_const]
  split <;> rfl

theorem getD_set_ne {l : List Cell} {j i : Nat} (h : i ≠ j) (v d : Cell) :
    (l.set j v).getD i d = l.getD i d := by
  simp [List.getD_eq_getElem?_getD, List.getElem?_set_ne (Ne.symm h)]

theorem getD_eraseIdx_lt (l : List Cell) (i j : Nat) (d : Cell) (h : i < j) :
    (l.eraseIdx j).getD i d = l.getD i d := by
  induction l generalizing i j with
  | nil => simp
  | cons a t ih =>
    cases j with
    | zero => omega
    | succ j' =>
      rw [List.eraseIdx_cons_succ]
      cases i with
      | zero => simp
      | succ i' =>
        simp only [List.getD_cons_succ]
        exact ih i' j' (by omega)

theorem lt_length_of_getD_ne {r : List Cell} {i : Nat}
    (h : r.getD i .null ≠ .null) : i < r.length := by
  by_contra hlen
  exact h (List.getD_eq_default _ _ (by omega))

theorem findIdx?_ge_start {α : Type} (p : α → Bool) :
    ∀ (l : List α) (i j : Nat), List.findIdx? p l i = some j → i ≤ j := by
  intro l
  induction l with
  | nil => intro i j h; simp [List.findIdx?] at h
  | cons a t ih =>
    intro i j h
    rw [List.findIdx?_cons] at h
    by_cases hp : p a = true
    · rw [if_pos hp] at h
      injection h with h'
      omega
    · rw [if_neg hp] at h
      have := ih (i + 1) j h
      omega

theorem findIdx?_cons2_ge {x c0 c1 : String} {t : List String} {j : Nat}
    (h0 : x ≠ c0) (h1 : x ≠ c1)
    (h : (c0 :: c1 :: t).findIdx? (· == x) = some j) : 2 ≤ j := by
  rw [List.findIdx?_cons, beq_eq_false_iff_ne.mpr (Ne.symm h0), if_neg (by simp)] at h
  rw [List.findIdx?_cons, beq_eq_false_iff_ne.mpr (Ne.symm h1), if_neg (by simp)] at h
  exact findIdx?_ge_start _ t 2 j h

/-! ### Lemmas about rowwise evaluation -/

theorem mapME_ok_mem {α β : Type} {f : α → Except PErr β} :
    ∀ {l : List α} {l' : List β}, mapME f l = .ok l' →
      ∀ b ∈ l', ∃ a ∈ l, f a = .ok b := by
  intro l
  induction l with
  | nil =>
    intro l' h b hb
    have h' : Except.ok ([] : List β) = Except.ok l' := h
    injection h' with h''
    subst h''
    cases hb
  | cons a t ih =>
    intro l' h b hb
    simp only [mapME] at h
    obtain ⟨v, hv, h2⟩ := bind_eq_ok h
    obtain ⟨t', ht', h3⟩ := bind_eq_ok h2
    have h3' : Except.ok (v :: t') = Except.ok l' := h3
    injection h3' with h4
    subst h4
    rcases List.mem_cons.mp hb with rfl | hbt
    · exact ⟨a, List.mem_cons_self a t, hv⟩
    · obtain ⟨a', ha', hfa'⟩ := ih ht' b hbt
      exact ⟨a', List.mem_cons_of_mem a ha', hfa'⟩

theorem mapME_not_ok {α β : Type} {f : α → Except PErr β} :
    ∀ {l : List α} {a : α}, a ∈ l → (∀ b, f a ≠ .ok b) →
      ∀ l', mapME f l ≠ .ok l' := by
  intro l
  induction l with
  | nil => intro a ha; cases ha
  | cons x t ih =>
    intro a ha hf l' h
    simp only [mapME] at h
    obtain ⟨v, hv, h2⟩ := bind_eq_ok h
    rcases List.mem_cons.mp ha with rfl | hat
    · exact hf v hv
    · obtain ⟨t', ht', _⟩ := bind_eq_ok h2
      exact ih hat hf t' ht'

theorem mapME_ok_ne_nil {α β : Type} {f : α → Except PErr β} {l : List α}
    {l' : List β} (h : mapME f l = .ok l') (hl : l ≠ []) : l' ≠ [] := by
  cases l with
  | nil => exact absurd rfl hl
  | cons a t =>
    simp only [mapME] at h
    obtain ⟨v, hv, h2⟩ := bind_eq_ok h
    obtain ⟨t', ht', h3⟩ := bind_eq_ok h2
    have h3' : Except.ok (v :: t') = Except.ok l' := h3
    injection h3' with h4
    subst h4
    exact List.cons_ne_nil v t'

/-! ### Inversion lemmas for the dataframe operations -/

theorem findCol_ok {cols : List String} {x : String} {i : Nat}
    (h : findCol cols x = .ok i) : cols.findIdx? (· == x) = some i := by
  unfold findCol at h
  cases hf : cols.findIdx? (· == x) with
  | none => rw [hf] at h; exact Except.noConfusion h
  | some j => rw [hf] at h; injection h with h'; rw [h']

theorem indexOfErr_ok {names : List String} {x : String} {e : PErr} {i : Nat}
    (h : indexOfErr names x e = .ok i) : names.findIdx? (· == x) = some i := by
  unfold indexOfErr at h
  cases hf : names.findIdx? (· == x) with
  | none => rw [hf] at h; exact Except.noConfusion h
  | some j => rw [hf] at h; injection h with h'; rw [h']

theorem filterAt_ok {ci pIdx : Nat} {rows rows1 : List (List Cell)}
    {chrom : String} {start endPos : Int}
    (h : filterAt ci pIdx rows chrom start endPos = .ok rows1) :
    rows1 = rows.filter fun r =>
      r.getD ci .null == Cell.str chrom &&
      (match r.getD pIdx .null with
       | Cell.int p => decide (start ≤ p ∧ p ≤ endPos)
       | _ => false) := by
  unfold filterAt at h
  split_ifs at h
  injection h with h'
  exact h'.symm

theorem filterAt_mem {ci pIdx : Nat} {rows rows1 : List (List Cell)}
    {chrom : String} {start endPos : Int} {r : List Cell}
    (h : filterAt ci pIdx rows chrom start endPos = .ok rows1)
    (hr : r ∈ rows1) :
    r ∈ rows ∧ r.getD ci .null = .str chrom ∧
      ∃ p, r.getD pIdx .null = .int p ∧ start ≤ p ∧ p ≤ endPos := by
  rw [filterAt_ok h] at hr
  obtain ⟨hmem, hpred⟩ := List.mem_filter.mp hr
  refine ⟨hmem, ?_⟩
  obtain ⟨hc, hp⟩ := Bool.and_eq_true_iff.mp hpred
  refine ⟨beq_iff_eq.mp hc, ?_⟩
  cases hcell : r.getD pIdx .null <;> rw [hcell] at hp <;> try exact Bool.noConfusion hp
  case int p =>
    exact ⟨p, rfl, of_decide_eq_true hp⟩

/-! ### C1, C2: the derived-allele annotator expressions -/

/-- C1: on every joined row the reference-match indicator is the
one-character string "1" when `ancestral_state` equals `REF` and "0"
otherwise; and for every sample whose genotype token has no '.', whose row's
ancestral state is not "N" and whose token is not null, the derived count is
the number of occurrences of the indicator character as a substring of the
token — with token "0/1" against indicator "1" giving 1 and "0/0" giving 0. -/
theorem C1_derived_count_is_indicator_occurrences (a r t : String)
    (hdot : strHasChar t '.' = false) (hN : a ≠ "N") :
    numAncestralCell (.str a) (.str r) =
      .ok (.str (if a = r then "1" else "0")) ∧
    derivedExpr (.str a) (.str (if a = r then "1" else "0")) (.str t) =
      .ok (.fnat (countOcc t (if a = r then "1" else "0"))) ∧
    countOcc "0/1" "1" = 1 ∧ countOcc "0/0" "1" = 0 := by
  refine ⟨?_, ?_, by decide, by decide⟩
  · by_cases h : a = r <;>
      simp [numAncestralCell, cellEqE, h, except_bind_ok]
  · simp [derivedExpr, strContainsDot, cellEqE, countMatchesE, hdot, hN,
      except_bind_ok]

/-- Closed witness for C1 at a concrete joined row (indicator "1" from
A == A, token "0/1", count 1). -/
theorem C1_derived_count_is_indicator_occurrences_witness :
    numAncestralCell (.str "A") (.str "A") = .ok (.str "1") ∧
    derivedExpr (.str "A") (.str "1") (.str "0/1") = .ok (.fnat 1) := by
  obtain ⟨h1, h2, -, -⟩ :=
    C1_derived_count_is_indicator_occurrences "A" "A" "0/1" (by decide) (by decide)
  rw [if_pos rfl] at h1 h2
  have hc : countOcc "0/1" "1" = 1 := by decide
  rw [hc] at h2
  exact ⟨h1, h2⟩

/-- C2: a genotype token containing '.' yields NaN, whatever the ancestral
state, the reference allele, and the reference-match indicator are: the
missing-token rule precedes the other three rules of the `when` chain. -/
theorem C2_missing_token_yields_nan (a p t : String)
    (hdot : strHasChar t '.' = true) :
    derivedExpr (.str a) (.str p) (.str t) = .ok .nan := by
  simp [derivedExpr, strContainsDot, cellEqE, countMatchesE, hdot,
    except_bind_ok]

/-- Closed witness for C2: token "./." is NaN even with ancestral state "N"
and indicator "0" present. -/
theorem C2_missing_token_yields_nan_witness :
    derivedExpr (.str "N") (.str "0") (.str "./.") = .ok .nan :=
  C2_missing_token_yields_nan "N" "0" "./." (by decide)

/-! ### C9: determinism of the pipeline -/

/-- C9: the pipeline is deterministic — two invocations with identical score
rows, genotype lines, contig, window bounds and gzip flag produce the
identical serialized output (byte-identical output files). -/
theorem C9_pipeline_deterministic (g1 g2 : List GerpRow) (v1 v2 : List String)
    (c1 c2 : String) (s1 s2 e1 e2 : Int) (z1 z2 : Bool)
    (h : (g1, v1, c1, s1, e1, z1) = (g2, v2, c2, s2, e2, z2)) :
    pipeline_output g1 v1 c1 s1 e1 z1 = pipeline_output g2 v2 c2 s2 e2 z2 := by
  simp only [Prod.mk.injEq] at h
  obtain ⟨h1, h2, h3, h4, h5, h6⟩ := h
  subst h1 h2 h3 h4 h5 h6
  rfl

/-- Closed witness for C9 at a concrete invocation. -/
theorem C9_pipeline_deterministic_witness :
    pipeline_output [⟨"c", 1, .str "A", .nan⟩] ["x"] "c" 1 2 false =
      pipeline_output [⟨"c", 1, .str "A", .nan⟩] ["x"] "c" 1 2 false :=
  C9_pipeline_deterministic _ _ _ _ _ _ _ _ _ _ _ _ rfl

/-! ### C4: the sentinel rows do not survive the annotator -/

/-- C4 (failing evaluation): on a window where both sources have zero rows,
the two NaN sentinel rows join with each other, and the annotator then
applies `str.contains` to the float-typed sentinel genotype columns — a
fatal dtype error.  No output row is produced, contradicting the claimed
"output row count ≥ 1" sentinel guarantee. -/
theorem C4_empty_window_sentinels_crash :
    S04.count_derived_alleles
      [⟨"chr1", 500, .str "A", .fraw "1.0"⟩]
      ["#CHROM\tPOS\tID\tREF\tALT\tQUAL\tFILTER\tINFO\tFORMAT\tsample1\n",
       "chr1\t500\t.\tA\tG\t50\tPASS\tx\tGT\t0/1\n"]
      "chr1" 100 200 false =
    .error (.schemaMismatch "str.contains on a non-string column") := by decide

/-! ### C7: header-discovery failures are fatal -/

/-- C7: when no line of the genotype source begins with "#CHROM", or the
discovered header has no "FORMAT" column, `read_vcf_windows` raises and the
error propagates out of `count_derived_alleles` — the invocation aborts with
no output for the window. -/
theorem C7_header_schema_failures (gerpRows : List GerpRow)
    (vcfLines : List String) (chrom : String) (start endPos : Int) (gz : Bool) :
    ((∀ l ∈ vcfLines, "#CHROM".data.isPrefixOf l.data = false) →
      S04.count_derived_alleles gerpRows vcfLines chrom start endPos gz =
        .error .nameNotDefined) ∧
    (∀ names, get_names vcfLines = .ok names → "FORMAT" ∉ names →
      S04.count_derived_alleles gerpRows vcfLines chrom start endPos gz =
        .error (.valueError "FORMAT is not in list")) := by
  constructor
  · intro h
    have hf : vcfLines.find? (fun l => "#CHROM".data.isPrefixOf l.data) = none := by
      rw [List.find?_eq_none]
      intro x hx
      simp [h x hx]
    simp [S04.count_derived_alleles, S04.read_vcf_windows, get_names, hf,
      except_bind_error]
  · intro names hget hfmt
    have hidx : names.findIdx? (· == "FORMAT") = none := by
      rw [List.findIdx?_eq_none_iff]
      intro x hx
      exact beq_eq_false_iff_ne.mpr fun h => hfmt (h ▸ hx)
    simp [S04.count_derived_alleles, S04.read_vcf_windows, indexOfErr, hget,
      hidx, except_bind_ok, except_bind_error]

/-- Closed witness for C7: a source with no "#CHROM" line, and one whose
header has no FORMAT column. -/
theorem C7_header_schema_failures_witness :
    S04.count_derived_alleles [] ["hello\n"] "c" 1 2 false =
      .error .nameNotDefined ∧
    S04.count_derived_alleles [] ["#CHROM\tPOS\tID\n", "c\t1\t.\n"] "c" 1 2 false =
      .error (.valueError "FORMAT is not in list") := by
  constructor
  · exact (C7_header_schema_failures [] ["hello\n"] "c" 1 2 false).1 (by decide)
  · exact (C7_header_schema_failures [] ["#CHROM\tPOS\tID\n", "c\t1\t.\n"]
      "c" 1 2 false).2 ["#CHROM", "POS", "ID"] (by decide) (by decide)

/-! ### C6: the score window loader -/

/-- C6 counterexample: the score loader does not sort — a source whose
matching rows are out of position order is returned in that same order —
and an empty window returns the sentinel row rather than exactly the (zero)
matching rows. -/
theorem C6_loader_not_sorted_counterexample :
    ¬ List.Pairwise (fun a b : GerpRow => a.pos ≤ b.pos)
        (read_gerp_windows
          [⟨"c", 5, .str "A", .nan⟩, ⟨"c", 3, .str "T", .nan⟩] "c" 1 10) ∧
    read_gerp_windows ([] : List GerpRow) "c" 1 10 ≠
      List.filter (fun r => decide (r.chrom = "c" ∧ 1 ≤ r.pos ∧ r.pos ≤ 10))
        [] := by
  exact ⟨by decide, by decide⟩

/-- Characterization of `read_gerp_windows` by its window filter. -/
theorem read_gerp_windows_eq (rows : List GerpRow) (chrom : String)
    (start endPos : Int) :
    read_gerp_windows rows chrom start endPos =
      if rows.filter (fun r =>
          decide (r.chrom = chrom ∧ start ≤ r.pos ∧ r.pos ≤ endPos)) = [] then
        [⟨chrom, start, .nan, .nan⟩]
      else rows.filter fun r =>
        decide (r.chrom = chrom ∧ start ≤ r.pos ∧ r.pos ≤ endPos) := by
  simp only [read_gerp_windows]
  by_cases h : rows.filter (fun r =>
      decide (r.chrom = chrom ∧ start ≤ r.pos ∧ r.pos ≤ endPos)) = []
  · simp [h]
  · simp [List.isEmpty_iff, h]

/-- C6 amended: the loader returns exactly the rows whose contig matches and
whose position lies in `[start, endPos]`, in source order — hence
position-ascending whenever the source itself is position-ascending — except
that when no row matches it returns the single NaN sentinel row at
`position = start`. -/
theorem C6_loader_window_filter_amended (rows : List GerpRow) (chrom : String)
    (start endPos : Int) :
    ((∃ r ∈ rows, r.chrom = chrom ∧ start ≤ r.pos ∧ r.pos ≤ endPos) →
      read_gerp_windows rows chrom start endPos =
        rows.filter fun r =>
          decide (r.chrom = chrom ∧ start ≤ r.pos ∧ r.pos ≤ endPos)) ∧
    ((¬ ∃ r ∈ rows, r.chrom = chrom ∧ start ≤ r.pos ∧ r.pos ≤ endPos) →
      read_gerp_windows rows chrom start endPos =
        [⟨chrom, start, .nan, .nan⟩]) ∧
    (List.Pairwise (fun a b : GerpRow => a.pos ≤ b.pos) rows →
      List.Pairwise (fun a b : GerpRow => a.pos ≤ b.pos)
        (read_gerp_windows rows chrom start endPos)) := by
  refine ⟨?_, ?_, ?_⟩
  · rintro ⟨r, hr, hp⟩
    have hne : rows.filter (fun r : GerpRow =>
        decide (r.chrom = chrom ∧ start ≤ r.pos ∧ r.pos ≤ endPos)) ≠ [] := by
      intro hnil
      exact absurd hp (by simpa using List.filter_eq_nil_iff.mp hnil r hr)
    rw [read_gerp_windows_eq, if_neg hne]
  · intro hnone
    have hnil : rows.filter (fun r : GerpRow =>
        decide (r.chrom = chrom ∧ start ≤ r.pos ∧ r.pos ≤ endPos)) = [] := by
      rw [List.filter_eq_nil_iff]
      intro r hr hp
      exact hnone ⟨r, hr, by simpa using hp⟩
    rw [read_gerp_windows_eq, if_pos hnil]
  · intro hs
    rw [read_gerp_windows_eq]
    by_cases hnil : rows.filter (fun r : GerpRow =>
        decide (r.chrom = chrom ∧ start ≤ r.pos ∧ r.pos ≤ endPos)) = []
    · rw [if_pos hnil]
      simp
    · rw [if_neg hnil]
      exact hs.sublist (List.filter_sublist rows)

/-- Closed witness for C6 amended: a sorted in-window source is returned
exactly and in ascending order. -/
theorem C6_loader_window_filter_amended_witness :
    read_gerp_windows
        [⟨"c", 3, .str "A", .nan⟩, ⟨"c", 5, .str "T", .nan⟩] "c" 1 10 =
      [⟨"c", 3, .str "A", .nan⟩, ⟨"c", 5, .str "T", .nan⟩] ∧
    List.Pairwise (fun a b : GerpRow => a.pos ≤ b.pos)
      (read_gerp_windows
        [⟨"c", 3, .str "A", .nan⟩, ⟨"c", 5, .str "T", .nan⟩] "c" 1 10) := by
  have h := C6_loader_window_filter_amended
    [⟨"c", 3, .str "A", .nan⟩, ⟨"c", 5, .str "T", .nan⟩] "c" 1 10
  constructor
  · rw [h.1 ⟨⟨"c", 3, .str "A", .nan⟩, by decide, by decide⟩]
    decide
  · exact h.2.2 (by decide)

/-! ### The join stage and the `Keyed` invariant -/

theorem joinRowsFor_mem {vcf : DF} {ci pIdx : Nat} {restIdx : List Nat}
    {g : GerpRow} {r : List Cell}
    (hr : r ∈ joinRowsFor vcf ci pIdx restIdx g) :
    (r = [Cell.str g.chrom, Cell.int g.pos, g.anc, g.score] ++
        restIdx.map (fun _ => Cell.null)) ∨
    (∃ m ∈ vcf.rows,
      (m.getD ci .null = .str g.chrom ∧ m.getD pIdx .null = .int g.pos) ∧
      r = [Cell.str g.chrom, Cell.int g.pos, g.anc, g.score] ++
        restIdx.map fun j => m.getD j .null) := by
  unfold joinRowsFor at hr
  by_cases hms : (vcf.rows.filter fun r =>
      r.getD ci .null == Cell.str g.chrom &&
      r.getD pIdx .null == Cell.int g.pos).isEmpty
  · rw [if_pos hms] at hr
    exact Or.inl (List.mem_singleton.mp hr)
  · rw [if_neg hms] at hr
    obtain ⟨m, hm, rfl⟩ := List.mem_map.mp hr
    obtain ⟨hmem, hpred⟩ := List.mem_filter.mp hm
    obtain ⟨h1, h2⟩ := Bool.and_eq_true_iff.mp hpred
    exact Or.inr ⟨m, hmem, ⟨beq_iff_eq.mp h1, beq_iff_eq.mp h2⟩, rfl⟩

theorem leftJoinDropNulls_keyed {gerp : List GerpRow} {vcf : DF} {df : DF}
    (h : leftJoinDropNulls gerp vcf = .ok df) : Keyed gerp vcf df := by
  unfold leftJoinDropNulls at h
  obtain ⟨ci, hci, h⟩ := bind_eq_ok h
  obtain ⟨pIdx, hpi, h⟩ := bind_eq_ok h
  split_ifs at h
  obtain ⟨ri, hri, h⟩ := bind_eq_ok h
  injection h with h'
  subst h'
  constructor
  · exact ⟨_, rfl⟩
  · intro r hr
    obtain ⟨hmem, hnn⟩ := List.mem_filter.mp hr
    obtain ⟨g, hg, hrf⟩ := List.mem_flatMap.mp hmem
    -- locate REF among the non-key columns: its index is at least 4
    have hri' := findCol_ok hri
    rw [List.findIdx?_append,
      (by decide : List.findIdx? (· == "REF")
        ["#CHROM", "POS", "ancestral_state", "gerp_score"] = none)] at hri'
    simp only [Option.none_or, Option.map_eq_some'] at hri'
    obtain ⟨k, -, hk⟩ := hri'
    rcases joinRowsFor_mem hrf with hnull | ⟨m, hm, ⟨e1, e2⟩, hr2⟩
    · -- the null-filled row has a null REF cell and cannot survive drop_nulls
      exfalso
      have hk4 : 4 ≤ ri := by
        simp only [List.length_cons, List.length_nil] at hk
        omega
      have hlen4 : ([Cell.str g.chrom, Cell.int g.pos, g.anc, g.score]).length ≤ ri := by
        simp only [List.length_cons, List.length_nil]
        omega
      rw [hnull, List.getD_append_right _ _ _ _ hlen4] at hnn
      rw [getD_map_const_same] at hnn
      simp at hnn
    · refine ⟨g, hg, ?_, ?_, ?_⟩
      · unfold vcfHasKey
        rw [findCol_ok hci, findCol_ok hpi]
        simp only [List.any_eq_true]
        exact ⟨m, hm, by simp only [e1, e2, beq_self_eq_true, Bool.and_self]⟩
      · rw [hr2]; rfl
      · rw [hr2]; rfl

theorem addNumAncestral_keyed {gerp : List GerpRow} {vcf : DF} {df df' : DF}
    (hk : Keyed gerp vcf df) (h : addNumAncestral df = .ok df') :
    Keyed gerp vcf df' := by
  unfold addNumAncestral at h
  obtain ⟨ai, -, h⟩ := bind_eq_ok h
  obtain ⟨ri, -, h⟩ := bind_eq_ok h
  obtain ⟨rows', hrows, h⟩ := bind_eq_ok h
  injection h with h'
  subst h'
  obtain ⟨⟨t, ht⟩, hK⟩ := hk
  refine ⟨⟨t ++ ["num_ancestral"], by simp [ht]⟩, ?_⟩
  intro r' hr'
  obtain ⟨r, hr, hfr⟩ := mapME_ok_mem hrows r' hr'
  obtain ⟨v, -, hv⟩ := bind_eq_ok hfr
  have hv' : Except.ok (r ++ [v]) = Except.ok r' := hv
  injection hv' with hv2
  subst hv2
  obtain ⟨g, hg, hkey, e0, e1⟩ := hK r hr
  have hlen : 1 < r.length := lt_length_of_getD_ne (by rw [e1]; intro hc; exact Cell.noConfusion hc)
  refine ⟨g, hg, hkey, ?_, ?_⟩
  · rw [List.getD_append _ _ _ _ (by omega)]; exact e0
  · rw [List.getD_append _ _ _ _ (by omega)]; exact e1

theorem addDerived_keyed {gerp : List GerpRow} {vcf : DF} {df df' : DF}
    {x : String} (hk : Keyed gerp vcf df) (h : addDerived df x = .ok df') :
    Keyed gerp vcf df' := by
  unfold addDerived at h
  obtain ⟨ai, -, h⟩ := bind_eq_ok h
  obtain ⟨ni, -, h⟩ := bind_eq_ok h
  obtain ⟨xi, -, h⟩ := bind_eq_ok h
  obtain ⟨rows', hrows, h⟩ := bind_eq_ok h
  injection h with h'
  subst h'
  obtain ⟨⟨t, ht⟩, hK⟩ := hk
  refine ⟨⟨t ++ [x ++ "_no_derived_alleles"], by simp [ht]⟩, ?_⟩
  intro r' hr'
  obtain ⟨r, hr, hfr⟩ := mapME_ok_mem hrows r' hr'
  obtain ⟨v, -, hv⟩ := bind_eq_ok hfr
  have hv' : Except.ok (r ++ [v]) = Except.ok r' := hv
  injection hv' with hv2
  subst hv2
  obtain ⟨g, hg, hkey, e0, e1⟩ := hK r hr
  have hlen : 1 < r.length := lt_length_of_getD_ne (by rw [e1]; intro hc; exact Cell.noConfusion hc)
  refine ⟨g, hg, hkey, ?_, ?_⟩
  · rw [List.getD_append _ _ _ _ (by omega)]; exact e0
  · rw [List.getD_append _ _ _ _ (by omega)]; exact e1

theorem foldl_addDerived_keyed {gerp : List GerpRow} {vcf : DF} :
    ∀ (inds : List String) {df df' : DF}, Keyed gerp vcf df →
      inds.foldlM addDerived df = .ok df' → Keyed gerp vcf df' := by
  intro inds
  induction inds with
  | nil =>
    intro df df' hk h
    have h' : Except.ok df = Except.ok df' := h
    injection h' with h2
    subst h2
    exact hk
  | cons x t ih =>
    intro df df' hk h
    rw [List.foldlM_cons] at h
    obtain ⟨df1, h1, h2⟩ := bind_eq_ok h
    exact ih (addDerived_keyed hk h1) h2

theorem dropCol_keyed {gerp : List GerpRow} {vcf : DF} {df df' : DF}
    {x : String} (hx0 : x ≠ "#CHROM") (hx1 : x ≠ "POS")
    (hk : Keyed gerp vcf df) (h : dropCol df x = .ok df') :
    Keyed gerp vcf df' := by
  unfold dropCol at h
  obtain ⟨⟨t, ht⟩, hK⟩ := hk
  cases hf : df.cols.findIdx? (· == x) with
  | none => rw [hf] at h; exact Except.noConfusion h
  | some j =>
    rw [hf] at h
    injection h with h'
    subst h'
    have hj : 2 ≤ j := findIdx?_cons2_ge hx0 hx1 (ht ▸ hf)
    obtain ⟨k, rfl⟩ : ∃ k, j = k + 1 + 1 := ⟨j - 2, by omega⟩
    constructor
    · refine ⟨t.eraseIdx k, ?_⟩
      simp only [ht]
      rw [List.eraseIdx_cons_succ, List.eraseIdx_cons_succ]
    · intro r' hr'
      obtain ⟨r, hr, rfl⟩ := List.mem_map.mp hr'
      obtain ⟨g, hg, hkey, e0, e1⟩ := hK r hr
      exact ⟨g, hg, hkey,
        by rw [getD_eraseIdx_lt _ _ _ _ (by omega)]; exact e0,
        by rw [getD_eraseIdx_lt _ _ _ _ (by omega)]; exact e1⟩

theorem dropCols_keyed {gerp : List GerpRow} {vcf : DF} :
    ∀ (xs : List String) {df df' : DF},
      (∀ x ∈ xs, x ≠ "#CHROM" ∧ x ≠ "POS") → Keyed gerp vcf df →
      dropCols df xs = .ok df' → Keyed gerp vcf df' := by
  intro xs
  induction xs with
  | nil =>
    intro df df' _ hk h
    have h' : Except.ok df = Except.ok df' := h
    injection h' with h2
    subst h2
    exact hk
  | cons x t ih =>
    intro df df' hx hk h
    rw [show dropCols df (x :: t) = dropCol df x >>= fun d => dropCols d t
      from rfl] at h
    obtain ⟨df1, h1, h2⟩ := bind_eq_ok h
    have hx0 := hx x (List.mem_cons_self x t)
    exact ih (fun y hy => hx y (List.mem_cons_of_mem x hy))
      (dropCol_keyed hx0.1 hx0.2 hk h1) h2

theorem annotate_keyed {gerp : List GerpRow} {vcf : DF} {df : DF}
    {t : List String}
    (hcols : vcf.cols = "#CHROM" :: "POS" :: t)
    (ht0 : "#CHROM" ∉ t) (ht1 : "POS" ∉ t)
    (hok : annotate gerp vcf = .ok df) : Keyed gerp vcf df := by
  unfold annotate at hok
  obtain ⟨altIdx, halt, hok⟩ := bind_eq_ok hok
  obtain ⟨df1, h1, hok⟩ := bind_eq_ok hok
  obtain ⟨df2, h2, hok⟩ := bind_eq_ok hok
  obtain ⟨df3, h3, hok⟩ := bind_eq_ok hok
  have halt' : vcf.cols.findIdx? (· == "ALT") = some altIdx := indexOfErr_ok halt
  have haI : 2 ≤ altIdx :=
    findIdx?_cons2_ge (by decide) (by decide) (hcols ▸ halt')
  have hdropset : ∀ x ∈ vcf.cols.drop (altIdx + 1) ++
      ["num_ancestral", "REF", "ALT"], x ≠ "#CHROM" ∧ x ≠ "POS" := by
    intro x hxmem
    rcases List.mem_append.mp hxmem with hxi | hxr
    · have hxt : x ∈ t := by
        rw [hcols, show altIdx + 1 = (altIdx - 1) + 1 + 1 by omega,
          List.drop_succ_cons, List.drop_succ_cons] at hxi
        exact List.mem_of_mem_drop hxi
      exact ⟨fun he => ht0 (he ▸ hxt), fun he => ht1 (he ▸ hxt)⟩
    · simp only [List.mem_cons, List.mem_singleton, List.not_mem_nil,
        or_false] at hxr
      rcases hxr with rfl | rfl | rfl
      · exact ⟨by decide, by decide⟩
      · exact ⟨by decide, by decide⟩
      · exact ⟨by decide, by decide⟩
  exact dropCols_keyed _ hdropset
    (foldl_addDerived_keyed _ (addNumAncestral_keyed (leftJoinDropNulls_keyed h1) h2) h3)
    hok

/-! ### C3: unmatched score keys never reach the output -/

/-- C3: a score record whose (contig, position) key matches no genotype
record is absent from the annotated output — the left join from score rows
into genotype rows followed by dropping the rows whose REF field is null
removes exactly the scored sites with no variant-call information.  (The
loaded genotype table's first two columns are the `#CHROM` and `POS` join
keys, and those two names do not recur among its later columns.) -/
theorem C3_unmatched_score_keys_absent (gerp : List GerpRow) (vcf : DF)
    (c : String) (p : Int) (df : DF) (t : List String)
    (hcols : vcf.cols = "#CHROM" :: "POS" :: t)
    (ht0 : "#CHROM" ∉ t) (ht1 : "POS" ∉ t)
    (hok : annotate gerp vcf = .ok df)
    (hnomatch : vcfHasKey vcf c p = false) :
    ∀ r ∈ df.rows,
      ¬(r.getD 0 .null = .str c ∧ r.getD 1 .null = .int p) := by
  have hk := annotate_keyed hcols ht0 ht1 hok
  rintro r hr ⟨e0, e1⟩
  obtain ⟨g, -, hkey, f0, f1⟩ := hk.2 r hr
  rw [e0] at f0
  rw [e1] at f1
  injection f0 with hc
  injection f1 with hp
  subst hc
  subst hp
  rw [hkey] at hnomatch
  exact Bool.noConfusion hnomatch

/-- Closed witness for C3: the score row at position 9 has no genotype match
and indeed the single output row does not carry its key. -/
theorem C3_unmatched_score_keys_absent_witness :
    ¬(([Cell.str "c", Cell.int 5, Cell.str "A", Cell.fraw "1.0",
        Cell.fnat 1] : List Cell).getD 0 .null = .str "c" ∧
      ([Cell.str "c", Cell.int 5, Cell.str "A", Cell.fraw "1.0",
        Cell.fnat 1] : List Cell).getD 1 .null = .int 9) :=
  C3_unmatched_score_keys_absent
    [⟨"c", 5, .str "A", .fraw "1.0"⟩, ⟨"c", 9, .str "T", .fraw "2.0"⟩]
    ⟨["#CHROM", "POS", "REF", "ALT", "s1"],
      [[.str "c", .int 5, .str "A", .str "G", .str "0/1"]]⟩
    "c" 9
    ⟨["#CHROM", "POS", "ancestral_state", "gerp_score",
        "s1_no_derived_alleles"],
      [[Cell.str "c", Cell.int 5, Cell.str "A", Cell.fraw "1.0",
        Cell.fnat 1]]⟩
    ["REF", "ALT", "s1"] rfl (by decide) (by decide) (by decide) (by decide)
    [Cell.str "c", Cell.int 5, Cell.str "A", Cell.fraw "1.0", Cell.fnat 1]
    (by decide)

/-! ### Characterizing the genotype loader on standard inputs -/

theorem read_csv_of_arity {lines : List String} {N : Nat}
    (hne : csvFields lines ≠ [])
    (harity : ∀ f ∈ csvFields lines, f.length = N) :
    read_csv lines = .ok (N, (csvFields lines).map fun f =>
      (List.range N).map fun j =>
        typeCell (colIsInt (csvFields lines) j) (f.getD j "")) := by
  unfold read_csv
  obtain ⟨r0, rest, hsplit⟩ := List.exists_cons_of_ne_nil hne
  have h0 : r0.length = N := harity r0 (hsplit ▸ List.mem_cons_self r0 rest)
  rw [hsplit]
  simp only [h0]
  have hall : ((r0 :: rest).all fun r => decide (r.length = N)) = true := by
    rw [List.all_eq_true]
    intro f hf
    exact decide_eq_true (harity f (hsplit ▸ hf))
  rw [if_pos hall]

theorem renameCols_self (names : List String) (hnodup : names.Nodup) :
    renameCols names.length names = .ok names := by
  unfold renameCols
  have he : (List.range names.length).map
      (fun i => names.getD i ("column_" ++ toString (i + 1))) = names := by
    apply List.ext_getElem
    · simp
    · intro n h1 h2
      simp only [List.getElem_map, List.getElem_range]
      rw [List.getD_eq_getElem _ _ h2]
  rw [he, if_pos hnodup]

theorem typedRow_getD (N : Nat) (g : Nat → Cell) (j : Nat) (hj : j < N) :
    ((List.range N).map g).getD j .null = g j := by
  rw [List.getD_eq_getElem _ _ (by simp [hj])]
  simp

theorem applySplit_pres {df df' : DF} {x : String} {t : List String}
    (hx0 : x ≠ "#CHROM") (hx1 : x ≠ "POS")
    (ht : df.cols = "#CHROM" :: "POS" :: t)
    (h : applySplit df x = .ok df') :
    df'.cols = df.cols ∧
    ∀ r' ∈ df'.rows, ∃ r ∈ df.rows,
      r'.getD 0 .null = r.getD 0 .null ∧ r'.getD 1 .null = r.getD 1 .null := by
  unfold applySplit at h
  cases hf : df.cols.findIdx? (· == x) with
  | none => rw [hf] at h; exact Except.noConfusion h
  | some j =>
    rw [hf] at h
    dsimp only at h
    split_ifs at h
    injection h with h'
    subst h'
    have hj : 2 ≤ j := findIdx?_cons2_ge hx0 hx1 (ht ▸ hf)
    refine ⟨rfl, ?_⟩
    intro r' hr'
    obtain ⟨r, hr, rfl⟩ := List.mem_map.mp hr'
    exact ⟨r, hr, getD_set_ne (by omega) _ _, getD_set_ne (by omega) _ _⟩

theorem foldl_applySplit_pres :
    ∀ (inds : List String) {df df' : DF} {t : List String},
      df.cols = "#CHROM" :: "POS" :: t →
      (∀ x ∈ inds, x ≠ "#CHROM" ∧ x ≠ "POS") →
      inds.foldlM applySplit df = .ok df' →
      df'.cols = df.cols ∧
      ∀ r' ∈ df'.rows, ∃ r ∈ df.rows,
        r'.getD 0 .null = r.getD 0 .null ∧ r'.getD 1 .null = r.getD 1 .null := by
  intro inds
  induction inds with
  | nil =>
    intro df df' t _ _ h
    have h' : Except.ok df = Except.ok df' := h
    injection h' with h2
    subst h2
    exact ⟨rfl, fun r hr => ⟨r, hr, rfl, rfl⟩⟩
  | cons x xs ih =>
    intro df df' t ht hx h
    rw [List.foldlM_cons] at h
    obtain ⟨df1, h1, h2⟩ := bind_eq_ok h
    have hx0 := hx x (List.mem_cons_self x xs)
    obtain ⟨hc1, hp1⟩ := applySplit_pres hx0.1 hx0.2 ht h1
    obtain ⟨hc2, hp2⟩ := ih (t := t) (hc1 ▸ ht) (fun y hy => hx y (List.mem_cons_of_mem x hy)) h2
    refine ⟨hc2.trans hc1, ?_⟩
    intro r' hr'
    obtain ⟨r1, hr1, e10, e11⟩ := hp2 r' hr'
    obtain ⟨r, hr, e0, e1⟩ := hp1 r1 hr1
    exact ⟨r, hr, e10.trans e0, e11.trans e1⟩

theorem dropCol_pres {df df' : DF} {x : String} {t : List String}
    (hx0 : x ≠ "#CHROM") (hx1 : x ≠ "POS")
    (ht : df.cols = "#CHROM" :: "POS" :: t)
    (h : dropCol df x = .ok df') :
    (∃ t', df'.cols = "#CHROM" :: "POS" :: t' ∧ t' ⊆ t) ∧
    ∀ r' ∈ df'.rows, ∃ r ∈ df.rows,
      r'.getD 0 .null = r.getD 0 .null ∧ r'.getD 1 .null = r.getD 1 .null := by
  unfold dropCol at h
  cases hf : df.cols.findIdx? (· == x) with
  | none => rw [hf] at h; exact Except.noConfusion h
  | some j =>
    rw [hf] at h
    injection h with h'
    subst h'
    have hj : 2 ≤ j := findIdx?_cons2_ge hx0 hx1 (ht ▸ hf)
    obtain ⟨k, rfl⟩ : ∃ k, j = k + 1 + 1 := ⟨j - 2, by omega⟩
    constructor
    · refine ⟨t.eraseIdx k, ?_, (List.eraseIdx_sublist t k).subset⟩
      simp only [ht]
      rw [List.eraseIdx_cons_succ, List.eraseIdx_cons_succ]
    · intro r' hr'
      obtain ⟨r, hr, rfl⟩ := List.mem_map.mp hr'
      exact ⟨r, hr, getD_eraseIdx_lt _ _ _ _ (by omega),
        getD_eraseIdx_lt _ _ _ _ (by omega)⟩

theorem dropCols_pres :
    ∀ (xs : List String) {df df' : DF} {t : List String},
      df.cols = "#CHROM" :: "POS" :: t →
      (∀ x ∈ xs, x ≠ "#CHROM" ∧ x ≠ "POS") →
      dropCols df xs = .ok df' →
      (∃ t', df'.cols = "#CHROM" :: "POS" :: t' ∧ t' ⊆ t) ∧
      ∀ r' ∈ df'.rows, ∃ r ∈ df.rows,
        r'.getD 0 .null = r.getD 0 .null ∧ r'.getD 1 .null = r.getD 1 .null := by
  intro xs
  induction xs with
  | nil =>
    intro df df' t ht _ h
    have h' : Except.ok df = Except.ok df' := h
    injection h' with h2
    subst h2
    exact ⟨⟨t, ht, fun a ha => ha⟩, fun r hr => ⟨r, hr, rfl, rfl⟩⟩
  | cons x xs ih =>
    intro df df' t ht hx h
    rw [show dropCols df (x :: xs) = dropCol df x >>= fun d => dropCols d xs
      from rfl] at h
    obtain ⟨df1, h1, h2⟩ := bind_eq_ok h
    have hx0 := hx x (List.mem_cons_self x xs)
    obtain ⟨⟨t1, ht1, hsub1⟩, hp1⟩ := dropCol_pres hx0.1 hx0.2 ht h1
    obtain ⟨⟨t2, ht2, hsub2⟩, hp2⟩ :=
      ih ht1 (fun y hy => hx y (List.mem_cons_of_mem x hy)) h2
    refine ⟨⟨t2, ht2, fun a ha => hsub1 (hsub2 ha)⟩, ?_⟩
    intro r' hr'
    obtain ⟨r1, hr1, e10, e11⟩ := hp2 r' hr'
    obtain ⟨r, hr, e0, e1⟩ := hp1 r1 hr1
    exact ⟨r, hr, e10.trans e0, e11.trans e1⟩

theorem dictInsert_fold_append :
    ∀ (ks : List String) (d : List (String × Cell)),
      (∀ k ∈ ks, ∀ q ∈ d, q.1 ≠ k) → ks.Nodup →
      ks.foldl (fun d c => dictInsert d c .nan) d =
        d ++ ks.map fun k => (k, Cell.nan) := by
  intro ks
  induction ks with
  | nil => intro d _ _; simp
  | cons k t ih =>
    intro d hd hnd
    rw [List.foldl_cons]
    have hins : dictInsert d k .nan = d ++ [(k, .nan)] := by
      unfold dictInsert
      rw [if_neg]
      intro hany
      obtain ⟨q, hq, hqk⟩ := List.any_eq_true.mp hany
      exact hd k (List.mem_cons_self k t) q hq (beq_iff_eq.mp hqk)
    have hd' : ∀ k' ∈ t, ∀ q ∈ d ++ [(k, Cell.nan)], q.1 ≠ k' := by
      intro k' hk' q hq
      rcases List.mem_append.mp hq with hqd | hqk
      · exact hd k' (List.mem_cons_of_mem _ hk') q hqd
      · rw [List.mem_singleton.mp hqk]
        intro he
        have he' : k = k' := he
        exact (List.nodup_cons.mp hnd).1 (he' ▸ hk')
    rw [hins, ih (d ++ [(k, Cell.nan)]) hd' (List.Nodup.of_cons hnd)]
    simp

theorem sentinelVcf_std (chrom : String) (start : Int) {names t : List String}
    (hshape : names = "#CHROM" :: "POS" :: t) (hnodup : names.Nodup) :
    sentinelVcf chrom start names =
      ⟨names, [Cell.str chrom :: Cell.int start :: t.map fun _ => Cell.nan]⟩ := by
  unfold sentinelVcf
  subst hshape
  have hnd1 : "#CHROM" ∉ "POS" :: t := (List.nodup_cons.mp hnodup).1
  have hnd2 : "POS" ∉ t := (List.nodup_cons.mp (List.Nodup.of_cons hnodup)).1
  have hd : ∀ k ∈ t, ∀ q ∈
      [("#CHROM", Cell.str chrom), ("POS", Cell.int start)], q.1 ≠ k := by
    intro k hk q hq
    rcases List.mem_cons.mp hq with rfl | hq2
    · intro he
      have he' : "#CHROM" = k := he
      exact hnd1 (by rw [he']; exact List.mem_cons_of_mem "POS" hk)
    · rw [List.mem_singleton.mp hq2]
      intro he
      have he' : "POS" = k := he
      exact hnd2 (by rw [he']; exact hk)
  rw [show ("#CHROM" :: "POS" :: t).drop 2 = t from rfl,
    dictInsert_fold_append t _ hd
      (List.Nodup.of_cons (List.Nodup.of_cons hnodup))]
  simp only [List.map_append, List.map_map, List.map_cons, List.map_nil]
  rw [show (Prod.fst ∘ fun k : String => (k, Cell.nan)) = id from rfl,
    List.map_id,
    show (Prod.snd ∘ fun k : String => (k, Cell.nan)) =
      (fun _ : String => Cell.nan) from rfl]
  rfl

theorem S04_read_vcf_std {lines : List String} {chrom : String}
    {start endPos : Int} {gz : Bool} {samples : List String} {df : DF}
    (hget : get_names lines = .ok (std9 ++ samples))
    (hnodup : (std9 ++ samples).Nodup)
    (harity : ∀ f ∈ csvFields lines, f.length = 9 + samples.length)
    (hne : csvFields lines ≠ [])
    (hok : S04.read_vcf_windows lines chrom start endPos gz = .ok df) :
    (∃ t, df.cols = "#CHROM" :: "POS" :: t ∧ "#CHROM" ∉ t ∧ "POS" ∉ t) ∧
    ∀ r ∈ df.rows, r.getD 0 .null = .str chrom ∧
      ∃ p, r.getD 1 .null = .int p ∧ (start ≤ p ∧ p ≤ endPos ∨ p = start) := by
  have hdisj := List.disjoint_of_nodup_append hnodup
  have hsx : ∀ x ∈ samples, x ≠ "#CHROM" ∧ x ≠ "POS" := by
    intro x hx
    constructor
    · intro he
      exact hdisj (show x ∈ std9 by rw [he]; decide) hx
    · intro he
      exact hdisj (show x ∈ std9 by rw [he]; decide) hx
  have htail0 : "#CHROM" ∉
      ["ID", "REF", "ALT", "QUAL", "FILTER", "INFO", "FORMAT"] ++ samples := by
    intro hmem
    rcases List.mem_append.mp hmem with h7 | hsm
    · exact absurd h7 (by decide)
    · exact hdisj (by decide : "#CHROM" ∈ std9) hsm
  have htail1 : "POS" ∉
      ["ID", "REF", "ALT", "QUAL", "FILTER", "INFO", "FORMAT"] ++ samples := by
    intro hmem
    rcases List.mem_append.mp hmem with h7 | hsm
    · exact absurd h7 (by decide)
    · exact hdisj (by decide : "POS" ∈ std9) hsm
  unfold S04.read_vcf_windows at hok
  rw [hget, except_bind_ok] at hok
  have hfmt : indexOfErr (std9 ++ samples) "FORMAT"
      (.valueError "FORMAT is not in list") = .ok 8 := by
    unfold indexOfErr
    rw [List.findIdx?_append,
      (by decide : List.findIdx? (· == "FORMAT") std9 = some 8)]
    rfl
  rw [hfmt, except_bind_ok, read_csv_of_arity hne harity, except_bind_ok] at hok
  dsimp only at hok
  rw [if_neg (by omega : ¬(9 + samples.length < 2))] at hok
  obtain ⟨rows1, hflt, hok⟩ := bind_eq_ok hok
  rw [show 9 + samples.length = (std9 ++ samples).length by simp [std9]; omega,
    renameCols_self _ hnodup, except_bind_ok] at hok
  have hinds : (std9 ++ samples).drop (8 + 1) = samples := rfl
  rw [hinds] at hok
  obtain ⟨df1, hsplit, hok⟩ := bind_eq_ok hok
  obtain ⟨df2, hdrop2, hok⟩ := bind_eq_ok hok
  have ht1 : (DF.mk (std9 ++ samples) rows1).cols = "#CHROM" :: "POS" ::
      (["ID", "REF", "ALT", "QUAL", "FILTER", "INFO", "FORMAT"] ++ samples) := rfl
  obtain ⟨hc1, hp1⟩ := foldl_applySplit_pres samples ht1 hsx hsplit
  obtain ⟨⟨t2, ht2c, hsub⟩, hp2⟩ := dropCols_pres
    ["ID", "QUAL", "FILTER", "INFO", "FORMAT"]
    (t := ["ID", "REF", "ALT", "QUAL", "FILTER", "INFO", "FORMAT"] ++ samples)
    (hc1.trans ht1)
    (by intro x hx; fin_cases hx <;> exact ⟨by decide, by decide⟩)
    hdrop2
  split_ifs at hok with hemp
  · injection hok with hok'
    subst hok'
    rw [sentinelVcf_std chrom start
      (show std9 ++ samples = "#CHROM" :: "POS" ::
        (["ID", "REF", "ALT", "QUAL", "FILTER", "INFO", "FORMAT"] ++ samples)
        from rfl) hnodup]
    constructor
    · exact ⟨_, rfl, htail0, htail1⟩
    · intro r hr
      rw [List.mem_singleton.mp hr]
      exact ⟨rfl, start, rfl, Or.inr rfl⟩
  · injection hok with hok'
    subst hok'
    constructor
    · exact ⟨t2, ht2c, fun hm => htail0 (hsub hm), fun hm => htail1 (hsub hm)⟩
    · intro r hr
      obtain ⟨r1, hr1, e10, e11⟩ := hp2 r hr
      obtain ⟨r0, hr0, e00, e01⟩ := hp1 r1 hr1
      obtain ⟨-, hkey, p, hp, hrange⟩ := filterAt_mem hflt hr0
      refine ⟨?_, p, ?_, Or.inl hrange⟩
      · rw [e10, e00, hkey]
      · rw [e11, e01, hp]

/-! ### C5: positions lie in the window -/

/-- C5 counterexample: with a reversed window the score loader's sentinel row
sits at `position = start`, outside `[start, endPos]`; and with a genotype
header whose name `POS` recurs after the third column, the genotype sentinel
overwrites the `POS` entry with float NaN, so the loaded record has no
integer position at all. -/
theorem C5_positions_counterexample :
    (¬ ∀ r ∈ read_gerp_windows ([] : List GerpRow) "c" 10 5,
      10 ≤ r.pos ∧ r.pos ≤ 5) ∧
    (S04.read_vcf_windows
        ["#CHROM\tPOS2\tID\tREF\tPOS\tALT\tQUAL\tFILTER\tINFO\tFORMAT\ts1\n",
         "c\t500\t.\tA\t7\tG\tq\tf\ti\tGT\t0/1\n"]
        "c" 1 10 false =
      .ok ⟨["#CHROM", "POS", "ID", "REF", "ALT", "QUAL", "FILTER", "INFO",
            "FORMAT", "s1"],
           [[Cell.str "c", Cell.nan, Cell.nan, Cell.nan, Cell.nan, Cell.nan,
             Cell.nan, Cell.nan, Cell.nan, Cell.nan]]⟩ ∧
      ¬ ∃ p : Int, [Cell.str "c", Cell.nan, Cell.nan, Cell.nan, Cell.nan,
        Cell.nan, Cell.nan, Cell.nan, Cell.nan, Cell.nan].getD 1 .null =
          .int p ∧ 1 ≤ p ∧ p ≤ 10) := by
  refine ⟨by decide, by decide, ?_⟩
  rintro ⟨p, hp, -⟩
  exact Cell.noConfusion hp

/-- C5 amended: provided `start ≤ endPos` and the discovered genotype header
is the standard one (`#CHROM, POS, ID, REF, ALT, QUAL, FILTER, INFO, FORMAT`
followed by distinct sample names, with data rows of matching arity), every
record loaded from either source and every row of the annotated output has
an integer position `p` with `start ≤ p ≤ endPos`. -/
theorem C5_positions_in_window_amended
    (gerpRows : List GerpRow) (lines : List String) (chrom : String)
    (start endPos : Int) (gz : Bool) (samples : List String)
    (hse : start ≤ endPos)
    (hget : get_names lines = .ok (std9 ++ samples))
    (hnodup : (std9 ++ samples).Nodup)
    (harity : ∀ f ∈ csvFields lines, f.length = 9 + samples.length)
    (hne : csvFields lines ≠ []) :
    (∀ r ∈ read_gerp_windows gerpRows chrom start endPos,
      start ≤ r.pos ∧ r.pos ≤ endPos) ∧
    (∀ df, S04.read_vcf_windows lines chrom start endPos gz = .ok df →
      ∀ r ∈ df.rows, ∃ p, r.getD 1 .null = .int p ∧
        start ≤ p ∧ p ≤ endPos) ∧
    (∀ df, S04.count_derived_alleles gerpRows lines chrom start endPos gz =
        .ok df →
      ∀ r ∈ df.rows, ∃ p, r.getD 1 .null = .int p ∧
        start ≤ p ∧ p ≤ endPos) := by
  have hgerp : ∀ r ∈ read_gerp_windows gerpRows chrom start endPos,
      start ≤ r.pos ∧ r.pos ≤ endPos := by
    intro r hr
    rw [read_gerp_windows_eq] at hr
    by_cases hnil : gerpRows.filter (fun r : GerpRow =>
        decide (r.chrom = chrom ∧ start ≤ r.pos ∧ r.pos ≤ endPos)) = []
    · rw [if_pos hnil] at hr
      rw [List.mem_singleton.mp hr]
      exact ⟨le_refl start, hse⟩
    · rw [if_neg hnil] at hr
      obtain ⟨-, hpred⟩ := List.mem_filter.mp hr
      have := of_decide_eq_true hpred
      exact ⟨this.2.1, this.2.2⟩
  refine ⟨hgerp, ?_, ?_⟩
  · intro df hok r hr
    obtain ⟨-, hrows⟩ := S04_read_vcf_std hget hnodup harity hne hok
    obtain ⟨-, p, hp, hrange⟩ := hrows r hr
    refine ⟨p, hp, ?_⟩
    rcases hrange with h | rfl
    · exact ⟨h.1, h.2⟩
    · exact ⟨le_refl p, hse⟩
  · intro df hok r hr
    unfold S04.count_derived_alleles at hok
    obtain ⟨df_vcf, hvcf, hann⟩ := bind_eq_ok hok
    obtain ⟨⟨t, hcols, ht0, ht1⟩, -⟩ :=
      S04_read_vcf_std hget hnodup harity hne hvcf
    have hk := annotate_keyed hcols ht0 ht1 hann
    obtain ⟨g, hg, -, -, e1⟩ := hk.2 r hr
    obtain ⟨h1, h2⟩ := hgerp g hg
    exact ⟨g.pos, e1, h1, h2⟩

/-- Closed witness for C5 amended at a concrete window. -/
theorem C5_positions_in_window_amended_witness :
    (∀ r ∈ read_gerp_windows [⟨"chr1", 150, .str "A", .fraw "3.2"⟩]
        "chr1" 100 200, 100 ≤ r.pos ∧ r.pos ≤ 200) ∧
    (∀ df, S04.read_vcf_windows
        ["#CHROM\tPOS\tID\tREF\tALT\tQUAL\tFILTER\tINFO\tFORMAT\tsample1\n",
         "chr1\t150\t.\tA\tG\t.\t.\t.\tGT\t0/1\n"]
        "chr1" 100 200 false = .ok df →
      ∀ r ∈ df.rows, ∃ p, r.getD 1 .null = .int p ∧ 100 ≤ p ∧ p ≤ 200) ∧
    (∀ df, S04.count_derived_alleles [⟨"chr1", 150, .str "A", .fraw "3.2"⟩]
        ["#CHROM\tPOS\tID\tREF\tALT\tQUAL\tFILTER\tINFO\tFORMAT\tsample1\n",
         "chr1\t150\t.\tA\tG\t.\t.\t.\tGT\t0/1\n"]
        "chr1" 100 200 false = .ok df →
      ∀ r ∈ df.rows, ∃ p, r.getD 1 .null = .int p ∧ 100 ≤ p ∧ p ≤ 200) :=
  C5_positions_in_window_amended
    [⟨"chr1", 150, .str "A", .fraw "3.2"⟩]
    ["#CHROM\tPOS\tID\tREF\tALT\tQUAL\tFILTER\tINFO\tFORMAT\tsample1\n",
     "chr1\t150\t.\tA\tG\t.\t.\t.\tGT\t0/1\n"]
    "chr1" 100 200 false ["sample1"] (by decide) (by decide) (by decide)
    (by decide) (by decide)

/-! ### C8: the two scripts -/

theorem read_vcf_agree {lines : List String} {chrom : String}
    {start endPos : Int} {gz1 gz2 : Bool} {names t : List String}
    (hget : get_names lines = .ok names)
    (hshape : names = "#CHROM" :: "POS" :: t)
    {d1 d2 : DF}
    (h1 : S04.read_vcf_windows lines chrom start endPos gz1 = .ok d1)
    (h2 : SGDA.read_vcf_windows lines chrom start endPos gz2 = .ok d2) :
    d1 = d2 := by
  subst hshape
  unfold S04.read_vcf_windows at h1
  unfold SGDA.read_vcf_windows at h2
  rw [hget, except_bind_ok] at h1 h2
  obtain ⟨fmtIdx, hfmt, h1⟩ := bind_eq_ok h1
  obtain ⟨nr, hcsv, h1⟩ := bind_eq_ok h1
  rw [hcsv, except_bind_ok] at h2
  obtain ⟨cols1, hren, h2⟩ := bind_eq_ok h2
  by_cases hn : nr.1 < 2
  · rw [if_pos hn] at h1
    exact Except.noConfusion h1
  rw [if_neg hn] at h1
  obtain ⟨rows1, hflt1, h1⟩ := bind_eq_ok h1
  rw [hren, except_bind_ok] at h1
  have hcols1 : ∃ rest, cols1 = "#CHROM" :: "POS" :: rest := by
    simp only [renameCols] at hren
    split_ifs at hren
    injection hren with hren'
    obtain ⟨m, hm⟩ : ∃ m, nr.1 = m + 2 := ⟨nr.1 - 2, by omega⟩
    rw [← hren', hm, List.range_succ_eq_map, List.range_succ_eq_map]
    simp only [List.map_cons, List.map_map]
    exact ⟨_, rfl⟩
  obtain ⟨rest, hc1⟩ := hcols1
  have hfc : findCol cols1 "#CHROM" = .ok 0 := by
    simp [findCol, hc1, List.findIdx?_cons]
  have hpc : findCol cols1 "POS" = .ok 1 := by
    simp [findCol, hc1, List.findIdx?_cons]
  rw [hfc, except_bind_ok, hpc, except_bind_ok, hflt1, except_bind_ok,
    hfmt, except_bind_ok] at h2
  have := h1.symm.trans h2
  injection this

/-- C8 counterexample: a genotype header that names its fifth physical
column `POS` (and its second `POS2`).  `04_gerp_derived_alleles.py` filters
the window on the physical second column and keeps one data row, while
`gerp_derived_alleles.py` filters on the column *named* `POS` and keeps two;
after the join the two scripts return different annotated tables on the very
same inputs. -/
theorem C8_scripts_differ_counterexample :
    S04.count_derived_alleles
      [⟨"chrB", 5, .str "A", .fraw "1.0"⟩]
      ["#CHROM\tPOS2\tID\tREF\tPOS\tALT\tQUAL\tFILTER\tINFO\tFORMAT\ts1\n",
       "chrB\t7\t.\tA\t5\tG\tq\tf\ti\tGT\t0/1\n",
       "chrB\t88\t.\tT\t5\tC\tq\tf\ti\tGT\t1/1\n"]
      "chrB" 1 10 false =
      .ok ⟨["#CHROM", "POS", "ancestral_state", "gerp_score", "POS2",
            "s1_no_derived_alleles"],
           [[Cell.str "chrB", Cell.int 5, Cell.str "A", Cell.fraw "1.0",
             Cell.int 7, Cell.fnat 1]]⟩ ∧
    SGDA.count_derived_alleles
      [⟨"chrB", 5, .str "A", .fraw "1.0"⟩]
      ["#CHROM\tPOS2\tID\tREF\tPOS\tALT\tQUAL\tFILTER\tINFO\tFORMAT\ts1\n",
       "chrB\t7\t.\tA\t5\tG\tq\tf\ti\tGT\t0/1\n",
       "chrB\t88\t.\tT\t5\tC\tq\tf\ti\tGT\t1/1\n"]
      "chrB" 1 10 false =
      .ok ⟨["#CHROM", "POS", "ancestral_state", "gerp_score", "POS2",
            "s1_no_derived_alleles"],
           [[Cell.str "chrB", Cell.int 5, Cell.str "A", Cell.fraw "1.0",
             Cell.int 7, Cell.fnat 1],
            [Cell.str "chrB", Cell.int 5, Cell.str "A", Cell.fraw "1.0",
             Cell.int 88, Cell.fnat 0]]⟩ ∧
    (⟨["#CHROM", "POS", "ancestral_state", "gerp_score", "POS2",
        "s1_no_derived_alleles"],
      [[Cell.str "chrB", Cell.int 5, Cell.str "A", Cell.fraw "1.0",
        Cell.int 7, Cell.fnat 1]]⟩ : DF) ≠
      ⟨["#CHROM", "POS", "ancestral_state", "gerp_score", "POS2",
        "s1_no_derived_alleles"],
       [[Cell.str "chrB", Cell.int 5, Cell.str "A", Cell.fraw "1.0",
         Cell.int 7, Cell.fnat 1],
        [Cell.str "chrB", Cell.int 5, Cell.str "A", Cell.fraw "1.0",
         Cell.int 88, Cell.fnat 0]]⟩ := by
  exact ⟨by decide, by decide, by decide⟩

/-- C8 amended: whenever the discovered genotype header begins with
`#CHROM, POS` — as in every well-formed VCF — the two scripts'
`count_derived_alleles` agree: on the same score rows, genotype lines,
contig, window and gzip flag, whenever both succeed they return the same
annotated table. -/
theorem C8_scripts_agree_amended
    (gerpRows : List GerpRow) (lines : List String) (chrom : String)
    (start endPos : Int) (gz : Bool) (names t : List String)
    (hget : get_names lines = .ok names)
    (hshape : names = "#CHROM" :: "POS" :: t) :
    ∀ df1 df2,
      S04.count_derived_alleles gerpRows lines chrom start endPos gz =
        .ok df1 →
      SGDA.count_derived_alleles gerpRows lines chrom start endPos gz =
        .ok df2 →
      df1 = df2 := by
  intro df1 df2 h1 h2
  unfold S04.count_derived_alleles at h1
  unfold SGDA.count_derived_alleles at h2
  obtain ⟨d1, hv1, h1⟩ := bind_eq_ok h1
  obtain ⟨d2, hv2, h2⟩ := bind_eq_ok h2
  rw [read_vcf_agree hget hshape hv1 hv2] at h1
  have := h1.symm.trans h2
  injection this

/-- Closed witness for C8 amended: on a standard-header input both scripts
return the same annotated table. -/
theorem C8_scripts_agree_amended_witness :
    (⟨["#CHROM", "POS", "ancestral_state", "gerp_score",
        "sample1_no_derived_alleles"],
      [[Cell.str "chr1", Cell.int 150, Cell.str "A", Cell.fraw "3.2",
        Cell.fnat 1]]⟩ : DF) =
      ⟨["#CHROM", "POS", "ancestral_state", "gerp_score",
        "sample1_no_derived_alleles"],
       [[Cell.str "chr1", Cell.int 150, Cell.str "A", Cell.fraw "3.2",
         Cell.fnat 1]]⟩ :=
  C8_scripts_agree_amended
    [⟨"chr1", 150, .str "A", .fraw "3.2"⟩]
    ["#CHROM\tPOS\tID\tREF\tALT\tQUAL\tFILTER\tINFO\tFORMAT\tsample1\n",
     "chr1\t150\t.\tA\tG\t.\t.\t.\tGT\t0/1\n"]
    "chr1" 100 200 false
    ["#CHROM", "POS", "ID", "REF", "ALT", "QUAL", "FILTER", "INFO", "FORMAT",
      "sample1"]
    ["ID", "REF", "ALT", "QUAL", "FILTER", "INFO", "FORMAT", "sample1"]
    (by decide) rfl _ _ (by decide) (by decide)

/-! ### C10: the empty-genotype-window sentinel and the annotator -/

theorem filterAt_typed_empty {lines : List String} {chrom : String}
    {start endPos : Int} {N : Nat} (hN0 : 0 < N) (hN1 : 1 < N)
    (hc0 : colIsInt (csvFields lines) 0 = false)
    (hc1 : colIsInt (csvFields lines) 1 = true)
    (hnomatch : ∀ f ∈ csvFields lines, f.getD 0 "" ≠ chrom ∨
      ∀ p : Int, toIntQ (f.getD 1 "") = some p →
        ¬(start ≤ p ∧ p ≤ endPos)) :
    filterAt 0 1 ((csvFields lines).map fun f =>
      (List.range N).map fun j =>
        typeCell (colIsInt (csvFields lines) j) (f.getD j "")) chrom start
      endPos = .ok [] := by
  have hrow0 : ∀ f ∈ csvFields lines,
      (((List.range N).map fun j =>
        typeCell (colIsInt (csvFields lines) j) (f.getD j "")).getD 0 .null) =
        .str (f.getD 0 "") := by
    intro f _
    rw [typedRow_getD N _ 0 hN0, hc0]
    rfl
  have hrow1 : ∀ f ∈ csvFields lines, ∃ p,
      (((List.range N).map fun j =>
        typeCell (colIsInt (csvFields lines) j) (f.getD j "")).getD 1 .null) =
        .int p ∧ toIntQ (f.getD 1 "") = some p := by
    intro f hf
    rw [typedRow_getD N _ 1 hN1, hc1]
    have hii : isIntString (f.getD 1 "") = true := by
      have := List.all_eq_true.mp hc1 f hf
      exact this
    obtain ⟨p, hp⟩ := Option.isSome_iff_exists.mp hii
    refine ⟨p, ?_, hp⟩
    rw [show typeCell true (f.getD 1 "") =
      (match toIntQ (f.getD 1 "") with
       | some n => Cell.int n
       | none => Cell.null) from rfl, hp]
  have hchk0 : (((csvFields lines).map fun f =>
      (List.range N).map fun j =>
        typeCell (colIsInt (csvFields lines) j) (f.getD j "")).all
      fun r => match r.getD 0 .null with
        | .str _ => true | .null => true | _ => false) = true := by
    rw [List.all_eq_true]
    intro row hrow
    obtain ⟨f, hf, rfl⟩ := List.mem_map.mp hrow
    rw [hrow0 f hf]
  have hchk1 : (((csvFields lines).map fun f =>
      (List.range N).map fun j =>
        typeCell (colIsInt (csvFields lines) j) (f.getD j "")).all
      fun r => match r.getD 1 .null with
        | .int _ => true | .null => true | _ => false) = true := by
    rw [List.all_eq_true]
    intro row hrow
    obtain ⟨f, hf, rfl⟩ := List.mem_map.mp hrow
    obtain ⟨p, e1, -⟩ := hrow1 f hf
    rw [e1]
  have hnil : ((csvFields lines).map fun f =>
      (List.range N).map fun j =>
        typeCell (colIsInt (csvFields lines) j) (f.getD j "")).filter
      (fun r => r.getD 0 .null == Cell.str chrom &&
        (match r.getD 1 .null with
         | Cell.int p => decide (start ≤ p ∧ p ≤ endPos)
         | _ => false)) = [] := by
    rw [List.filter_eq_nil_iff]
    intro row hrow
    obtain ⟨f, hf, rfl⟩ := List.mem_map.mp hrow
    obtain ⟨p, e1, hp⟩ := hrow1 f hf
    rw [hrow0 f hf, e1]
    rcases hnomatch f hf with hc | hr
    · intro hpred
      obtain ⟨hl, -⟩ := Bool.and_eq_true_iff.mp hpred
      exact hc (Cell.str.inj (beq_iff_eq.mp hl))
    · intro hpred
      obtain ⟨-, hm⟩ := Bool.and_eq_true_iff.mp hpred
      exact hr p hp (of_decide_eq_true hm)
  unfold filterAt
  rw [if_pos hchk0, if_pos hchk1, hnil]

theorem foldl_applySplit_empty :
    ∀ (inds : List String) (cols : List String),
      (∀ x ∈ inds, x ∈ cols) →
      inds.foldlM applySplit ⟨cols, ([] : List (List Cell))⟩ =
        .ok ⟨cols, []⟩ := by
  intro inds
  induction inds with
  | nil => intro cols _; rfl
  | cons x t ih =>
    intro cols hx
    rw [List.foldlM_cons]
    have hx0 : x ∈ cols := hx x (List.mem_cons_self x t)
    have hsp : applySplit ⟨cols, []⟩ x = .ok ⟨cols, []⟩ := by
      unfold applySplit
      cases hf : cols.findIdx? (· == x) with
      | none =>
        exact absurd (List.findIdx?_eq_none_iff.mp hf x hx0) (by simp)
      | some j => rfl
    rw [hsp, except_bind_ok]
    exact ih cols fun y hy => hx y (List.mem_cons_of_mem x hy)

theorem dropCols_five_std (samples : List String) :
    dropCols ⟨std9 ++ samples, ([] : List (List Cell))⟩
      ["ID", "QUAL", "FILTER", "INFO", "FORMAT"] =
      .ok ⟨["#CHROM", "POS", "REF", "ALT"] ++ samples, []⟩ := by
  simp [dropCols, dropCol, List.foldlM_cons, List.findIdx?_cons, std9,
    List.eraseIdx_cons_succ, List.eraseIdx_cons_zero, except_bind_ok]

theorem derivedExpr_nan_token (a m : Cell) :
    derivedExpr a m Cell.nan =
      .error (.schemaMismatch "str.contains on a non-string column") := rfl

theorem joined_sentinel_mem (gerpRows : List GerpRow) (samples : List String)
    (chrom : String) (start endPos : Int) (anc0 sc0 : Cell)
    (hg : (⟨chrom, start, anc0, sc0⟩ : GerpRow) ∈ gerpRows)
    (hse : start ≤ endPos) :
    ([Cell.str chrom, Cell.int start, anc0, sc0] ++
        ([2, 3, 4, 5, 6, 7, 8] ++
          List.filter (fun j => j != 0 && j != 1)
            (List.map (fun x => 9 + x) (List.range samples.length))).map
          fun j => (Cell.str chrom :: Cell.int start ::
            List.map (fun x => Cell.nan)
              (["ID", "REF", "ALT", "QUAL", "FILTER", "INFO", "FORMAT"] ++
                samples)).getD j Cell.null) ∈
      List.filter (fun r => !(r.getD 5 Cell.null == Cell.null))
        ((read_gerp_windows gerpRows chrom start endPos).flatMap
          (joinRowsFor
            ⟨std9 ++ samples,
              [Cell.str chrom :: Cell.int start ::
                List.map (fun x => Cell.nan)
                  (["ID", "REF", "ALT", "QUAL", "FILTER", "INFO", "FORMAT"] ++
                    samples)]⟩
            0 1
            ([2, 3, 4, 5, 6, 7, 8] ++
              List.filter (fun j => j != 0 && j != 1)
                (List.map (fun x => 9 + x) (List.range samples.length))))) := by
  have hgmem : (⟨chrom, start, anc0, sc0⟩ : GerpRow) ∈
      read_gerp_windows gerpRows chrom start endPos := by
    have hmem : (⟨chrom, start, anc0, sc0⟩ : GerpRow) ∈
        gerpRows.filter fun r =>
          decide (r.chrom = chrom ∧ start ≤ r.pos ∧ r.pos ≤ endPos) :=
      List.mem_filter.mpr ⟨hg, by simp [hse]⟩
    rw [read_gerp_windows_eq, if_neg (List.ne_nil_of_mem hmem)]
    exact hmem
  refine List.mem_filter.mpr ⟨?_, ?_⟩
  · refine List.mem_flatMap.mpr ⟨⟨chrom, start, anc0, sc0⟩, hgmem, ?_⟩
    unfold joinRowsFor
    dsimp only
    rw [show (List.filter
        (fun r => r.getD 0 Cell.null == Cell.str chrom &&
          r.getD 1 Cell.null == Cell.int start)
        [Cell.str chrom :: Cell.int start ::
          List.map (fun x => Cell.nan)
            (["ID", "REF", "ALT", "QUAL", "FILTER", "INFO", "FORMAT"] ++
              samples)]) =
        [Cell.str chrom :: Cell.int start ::
          List.map (fun x => Cell.nan)
            (["ID", "REF", "ALT", "QUAL", "FILTER", "INFO", "FORMAT"] ++
              samples)] by simp]
    rw [if_neg (show ¬(([Cell.str chrom :: Cell.int start ::
        List.map (fun x => Cell.nan)
          (["ID", "REF", "ALT", "QUAL", "FILTER", "INFO", "FORMAT"] ++
            samples)] : List (List Cell)).isEmpty = true) by simp)]
    exact List.mem_singleton.mpr rfl
  · rfl

theorem joined_row_qual_nan (G : List GerpRow) (samples : List String)
    (chrom : String) (start : Int) (r : List Cell)
    (hr : r ∈ List.filter (fun r => !(r.getD 5 Cell.null == Cell.null))
      (G.flatMap
        (joinRowsFor
          ⟨std9 ++ samples,
            [Cell.str chrom :: Cell.int start ::
              List.map (fun x => Cell.nan)
                (["ID", "REF", "ALT", "QUAL", "FILTER", "INFO", "FORMAT"] ++
                  samples)]⟩
          0 1
          ([2, 3, 4, 5, 6, 7, 8] ++
            List.filter (fun j => j != 0 && j != 1)
              (List.map (fun x => 9 + x) (List.range samples.length)))))) :
    r.getD 7 Cell.null = Cell.nan ∧ 7 < r.length := by
  obtain ⟨hrf, hrp⟩ := List.mem_filter.mp hr
  obtain ⟨g, hgG, hrj⟩ := List.mem_flatMap.mp hrf
  unfold joinRowsFor at hrj
  dsimp only at hrj
  by_cases hms : (List.filter (fun r =>
      r.getD 0 Cell.null == Cell.str g.chrom &&
        r.getD 1 Cell.null == Cell.int g.pos)
      [Cell.str chrom :: Cell.int start ::
        List.map (fun x => Cell.nan)
          (["ID", "REF", "ALT", "QUAL", "FILTER", "INFO", "FORMAT"] ++
            samples)]).isEmpty = true
  · rw [if_pos hms] at hrj
    rw [List.mem_singleton] at hrj
    subst hrj
    exact Bool.noConfusion (show false = true from hrp)
  · rw [if_neg hms] at hrj
    obtain ⟨r0, hr0, hmap⟩ := List.mem_map.mp hrj
    obtain ⟨hr01, -⟩ := List.mem_filter.mp hr0
    rw [List.mem_singleton] at hr01
    subst hr01
    subst hmap
    refine ⟨rfl, ?_⟩
    simp only [List.length_append, List.length_cons, List.length_map,
      List.length_nil]
    omega

/-- C10 amended: on a genotype window with zero matching rows the sentinel
record does assign float NaN to every header column from the third onward —
including the dropped ID, QUAL, FILTER, INFO and FORMAT columns — but the
annotator, which treats every column after ALT as a sample, then applies its
string operations to those float columns: whenever any scored site joins the
sentinel row, `count_derived_alleles` aborts with a dtype error instead of
producing `QUAL/FILTER/INFO/FORMAT_no_derived_alleles` columns, so the
empty-genotype-window case produces no output at all. -/
theorem C10_sentinel_floats_break_annotator
    (gerpRows : List GerpRow) (lines : List String) (chrom : String)
    (start endPos : Int) (gz : Bool) (samples : List String)
    (anc0 sc0 : Cell)
    (hget : get_names lines = .ok (std9 ++ samples))
    (hnodup : (std9 ++ samples).Nodup)
    (harity : ∀ f ∈ csvFields lines, f.length = 9 + samples.length)
    (hne : csvFields lines ≠ [])
    (hc0 : colIsInt (csvFields lines) 0 = false)
    (hc1 : colIsInt (csvFields lines) 1 = true)
    (hnomatch : ∀ f ∈ csvFields lines, f.getD 0 "" ≠ chrom ∨
      ∀ p : Int, toIntQ (f.getD 1 "") = some p →
        ¬(start ≤ p ∧ p ≤ endPos))
    (hg : (⟨chrom, start, anc0, sc0⟩ : GerpRow) ∈ gerpRows)
    (hse : start ≤ endPos) :
    S04.read_vcf_windows lines chrom start endPos gz =
      .ok ⟨std9 ++ samples,
        [Cell.str chrom :: Cell.int start ::
          (["ID", "REF", "ALT", "QUAL", "FILTER", "INFO", "FORMAT"] ++
            samples).map fun _ => Cell.nan]⟩ ∧
    ∀ df, S04.count_derived_alleles gerpRows lines chrom start endPos gz ≠
      .ok df := by
  have hfmt : indexOfErr (std9 ++ samples) "FORMAT"
      (.valueError "FORMAT is not in list") = .ok 8 := by
    unfold indexOfErr
    rw [List.findIdx?_append,
      (by decide : List.findIdx? (· == "FORMAT") std9 = some 8)]
    rfl
  have h1 : S04.read_vcf_windows lines chrom start endPos gz =
      .ok ⟨std9 ++ samples,
        [Cell.str chrom :: Cell.int start ::
          (["ID", "REF", "ALT", "QUAL", "FILTER", "INFO", "FORMAT"] ++
            samples).map fun _ => Cell.nan]⟩ := by
    unfold S04.read_vcf_windows
    rw [hget, except_bind_ok, hfmt, except_bind_ok,
      read_csv_of_arity hne harity, except_bind_ok]
    dsimp only
    rw [if_neg (by omega : ¬(9 + samples.length < 2))]
    rw [filterAt_typed_empty
        (show (0 : Nat) < 9 + samples.length by omega)
        (show (1 : Nat) < 9 + samples.length by omega) hc0 hc1 hnomatch,
      except_bind_ok]
    rw [show 9 + samples.length = (std9 ++ samples).length by
        simp [std9]; omega,
      renameCols_self _ hnodup, except_bind_ok]
    rw [show (std9 ++ samples).drop (8 + 1) = samples from rfl]
    rw [foldl_applySplit_empty samples (std9 ++ samples)
        (fun x hx => List.mem_append.mpr (Or.inr hx)),
      except_bind_ok]
    rw [dropCols_five_std samples, except_bind_ok]
    rw [if_pos (show (DF.mk (["#CHROM", "POS", "REF", "ALT"] ++ samples)
      ([] : List (List Cell))).rows.isEmpty = true from rfl)]
    rw [sentinelVcf_std chrom start
      (show std9 ++ samples = "#CHROM" :: "POS" ::
        (["ID", "REF", "ALT", "QUAL", "FILTER", "INFO", "FORMAT"] ++ samples)
        from rfl) hnodup]
  refine ⟨h1, ?_⟩
  intro df hok
  unfold S04.count_derived_alleles at hok
  obtain ⟨dvcf, hvcf, hok⟩ := bind_eq_ok hok
  rw [h1] at hvcf
  injection hvcf with hv
  subst hv
  unfold annotate at hok
  dsimp only at hok
  have halt : indexOfErr (std9 ++ samples) "ALT"
      (.valueError "ALT is not in list") = .ok 4 := by
    unfold indexOfErr
    rw [List.findIdx?_append,
      (by decide : List.findIdx? (· == "ALT") std9 = some 4)]
    rfl
  rw [halt, except_bind_ok,
    show (std9 ++ samples).drop (4 + 1) =
      ["QUAL", "FILTER", "INFO", "FORMAT"] ++ samples from rfl] at hok
  obtain ⟨J, hJ, hok⟩ := bind_eq_ok hok
  obtain ⟨A, hA, hok⟩ := bind_eq_ok hok
  obtain ⟨F, hF, hok⟩ := bind_eq_ok hok
  unfold leftJoinDropNulls at hJ
  dsimp only at hJ
  rw [show findCol (std9 ++ samples) "#CHROM" = .ok 0 by
      simp [findCol, std9, List.findIdx?_cons], except_bind_ok] at hJ
  rw [show findCol (std9 ++ samples) "POS" = .ok 1 by
      simp [findCol, std9, List.findIdx?_cons], except_bind_ok] at hJ
  simp only [List.all_cons, List.all_nil, Bool.and_true,
    List.getD_cons_zero, List.getD_cons_succ, if_true] at hJ
  rw [show (std9 ++ samples).length = 9 + samples.length by
      simp [std9]; omega,
    List.range_add, List.filter_append,
    show (List.range 9).filter (fun j => j != 0 && j != 1) =
      [2, 3, 4, 5, 6, 7, 8] by decide] at hJ
  rw [List.map_append,
    show [2, 3, 4, 5, 6, 7, 8].map (fun j => (std9 ++ samples).getD j "") =
      ["ID", "REF", "ALT", "QUAL", "FILTER", "INFO", "FORMAT"] from rfl] at hJ
  obtain ⟨ri, hri, hJ⟩ := bind_eq_ok hJ
  rw [show findCol
      (["#CHROM", "POS", "ancestral_state", "gerp_score"] ++
        (["ID", "REF", "ALT", "QUAL", "FILTER", "INFO", "FORMAT"] ++
          (((List.range samples.length).map fun x => 9 + x).filter
            (fun j => j != 0 && j != 1)).map
            fun j => (std9 ++ samples).getD j "")) "REF" = .ok 5 by
      simp [findCol, List.findIdx?_cons]] at hri
  injection hri with hri'
  subst hri'
  injection hJ with hJ'
  subst hJ'
  unfold addNumAncestral at hA
  dsimp only at hA
  rw [show findCol
      (["#CHROM", "POS", "ancestral_state", "gerp_score"] ++
        (["ID", "REF", "ALT", "QUAL", "FILTER", "INFO", "FORMAT"] ++
          List.map (fun j => (std9 ++ samples).getD j "")
            (List.filter (fun j => j != 0 && j != 1)
              (List.map (fun x => 9 + x) (List.range samples.length)))))
      "ancestral_state" = .ok 2 by simp [findCol, List.findIdx?_cons],
    except_bind_ok] at hA
  rw [show findCol
      (["#CHROM", "POS", "ancestral_state", "gerp_score"] ++
        (["ID", "REF", "ALT", "QUAL", "FILTER", "INFO", "FORMAT"] ++
          List.map (fun j => (std9 ++ samples).getD j "")
            (List.filter (fun j => j != 0 && j != 1)
              (List.map (fun x => 9 + x) (List.range samples.length)))))
      "REF" = .ok 5 by simp [findCol, List.findIdx?_cons],
    except_bind_ok] at hA
  obtain ⟨rowsA, hrowsA, hA2⟩ := bind_eq_ok hA
  have hA2' : Except.ok (DF.mk
      ((["#CHROM", "POS", "ancestral_state", "gerp_score"] ++
        (["ID", "REF", "ALT", "QUAL", "FILTER", "INFO", "FORMAT"] ++
          List.map (fun j => (std9 ++ samples).getD j "")
            (List.filter (fun j => j != 0 && j != 1)
              (List.map (fun x => 9 + x) (List.range samples.length))))) ++
        ["num_ancestral"]) rowsA) = Except.ok A := hA2
  injection hA2' with hAeq
  subst hAeq
  have hAne : rowsA ≠ [] :=
    mapME_ok_ne_nil hrowsA
      (List.ne_nil_of_mem
        (joined_sentinel_mem gerpRows samples chrom start endPos anc0 sc0
          hg hse))
  have hA7 : ∀ ra ∈ rowsA, ra.getD 7 Cell.null = Cell.nan := by
    intro ra hra
    obtain ⟨r, hrJ, hfr⟩ := mapME_ok_mem hrowsA ra hra
    obtain ⟨v, hv, hr2⟩ := bind_eq_ok hfr
    have hr2' : Except.ok (r ++ [v]) = Except.ok ra := hr2
    injection hr2' with hr3
    subst hr3
    obtain ⟨h7, hlen⟩ := joined_row_qual_nan
      (read_gerp_windows gerpRows chrom start endPos) samples chrom start
      r hrJ
    rw [List.getD_append _ _ _ _ hlen]
    exact h7
  rw [show (["QUAL", "FILTER", "INFO", "FORMAT"] ++ samples) =
      "QUAL" :: (["FILTER", "INFO", "FORMAT"] ++ samples) from rfl,
    List.foldlM_cons] at hF
  obtain ⟨D, hD, -⟩ := bind_eq_ok hF
  unfold addDerived at hD
  dsimp only at hD
  rw [show findCol
      ((["#CHROM", "POS", "ancestral_state", "gerp_score"] ++
        (["ID", "REF", "ALT", "QUAL", "FILTER", "INFO", "FORMAT"] ++
          List.map (fun j => (std9 ++ samples).getD j "")
            (List.filter (fun j => j != 0 && j != 1)
              (List.map (fun x => 9 + x) (List.range samples.length))))) ++
        ["num_ancestral"])
      "ancestral_state" = .ok 2 by simp [findCol, List.findIdx?_cons],
    except_bind_ok] at hD
  obtain ⟨ni, hni, hD⟩ := bind_eq_ok hD
  rw [show findCol
      ((["#CHROM", "POS", "ancestral_state", "gerp_score"] ++
        (["ID", "REF", "ALT", "QUAL", "FILTER", "INFO", "FORMAT"] ++
          List.map (fun j => (std9 ++ samples).getD j "")
            (List.filter (fun j => j != 0 && j != 1)
              (List.map (fun x => 9 + x) (List.range samples.length))))) ++
        ["num_ancestral"])
      "QUAL" = .ok 7 by simp [findCol, List.findIdx?_cons],
    except_bind_ok] at hD
  obtain ⟨rowsD, hrowsD, -⟩ := bind_eq_ok hD
  obtain ⟨a0, t0, hcons⟩ := List.exists_cons_of_ne_nil hAne
  subst hcons
  have ha7 : a0.getD 7 Cell.null = Cell.nan :=
    hA7 a0 (List.mem_cons_self a0 t0)
  refine mapME_not_ok (List.mem_cons_self a0 t0) ?_ rowsD hrowsD
  intro b hb
  rw [ha7, derivedExpr_nan_token, except_bind_error] at hb
  exact Except.noConfusion hb

/-- C10 counterexample: an empty genotype window (the single data row sits
at position 500, outside the window [100, 200]) joined against one in-window
score row.  The loader does return the float-NaN sentinel, but the annotator
then aborts with a dtype error, so no table with the extra
`QUAL/FILTER/INFO/FORMAT_no_derived_alleles` columns is ever produced. -/
theorem C10_sentinel_extra_columns_counterexample :
    S04.read_vcf_windows
        ["#CHROM\tPOS\tID\tREF\tALT\tQUAL\tFILTER\tINFO\tFORMAT\tsample1\n",
         "chr1\t500\t.\tA\tG\t50\tPASS\tx\tGT\t0/1\n"]
        "chr1" 100 200 false =
      .ok ⟨["#CHROM", "POS", "ID", "REF", "ALT", "QUAL", "FILTER", "INFO",
            "FORMAT", "sample1"],
        [[Cell.str "chr1", Cell.int 100, Cell.nan, Cell.nan, Cell.nan,
          Cell.nan, Cell.nan, Cell.nan, Cell.nan, Cell.nan]]⟩ ∧
    S04.count_derived_alleles
        [⟨"chr1", 100, Cell.str "A", Cell.fraw "1.0"⟩]
        ["#CHROM\tPOS\tID\tREF\tALT\tQUAL\tFILTER\tINFO\tFORMAT\tsample1\n",
         "chr1\t500\t.\tA\tG\t50\tPASS\tx\tGT\t0/1\n"]
        "chr1" 100 200 false =
      .error (.schemaMismatch "eq between str and numeric dtypes") := by
  exact ⟨by decide, by decide⟩

/-- Closed witness for C10 amended: the concrete empty-window invocation
satisfies every hypothesis, the loader returns the float-NaN sentinel, and
the annotator rejects every attempt to produce an output table. -/
theorem C10_sentinel_floats_break_annotator_witness :
    S04.read_vcf_windows
        ["#CHROM\tPOS\tID\tREF\tALT\tQUAL\tFILTER\tINFO\tFORMAT\tsample1\n",
         "chr1\t500\t.\tA\tG\t50\tPASS\tx\tGT\t0/1\n"]
        "chr1" 100 200 false =
      .ok ⟨std9 ++ ["sample1"],
        [Cell.str "chr1" :: Cell.int 100 ::
          (["ID", "REF", "ALT", "QUAL", "FILTER", "INFO", "FORMAT"] ++
            ["sample1"]).map fun _ => Cell.nan]⟩ ∧
    ∀ df, S04.count_derived_alleles
        [⟨"chr1", 100, Cell.str "A", Cell.fraw "1.0"⟩]
        ["#CHROM\tPOS\tID\tREF\tALT\tQUAL\tFILTER\tINFO\tFORMAT\tsample1\n",
         "chr1\t500\t.\tA\tG\t50\tPASS\tx\tGT\t0/1\n"]
        "chr1" 100 200 false ≠ .ok df :=
  C10_sentinel_floats_break_annotator
    [⟨"chr1", 100, Cell.str "A", Cell.fraw "1.0"⟩]
    ["#CHROM\tPOS\tID\tREF\tALT\tQUAL\tFILTER\tINFO\tFORMAT\tsample1\n",
     "chr1\t500\t.\tA\tG\t50\tPASS\tx\tGT\t0/1\n"]
    "chr1" 100 200 false ["sample1"] (Cell.str "A") (Cell.fraw "1.0")
    (by decide) (by decide) (by decide) (by decide) (by decide) (by decide)
    (by
      intro f hf
      right
      intro p hp
      rw [show csvFields
          ["#CHROM\tPOS\tID\tREF\tALT\tQUAL\tFILTER\tINFO\tFORMAT\tsample1\n",
           "chr1\t500\t.\tA\tG\t50\tPASS\tx\tGT\t0/1\n"] =
          [["chr1", "500", ".", "A", "G", "50", "PASS", "x", "GT", "0/1"]]
          from by decide, List.mem_singleton] at hf
      subst hf
      rw [show toIntQ ((["chr1", "500", ".", "A", "G", "50", "PASS", "x",
          "GT", "0/1"] : List String).getD 1 "") = some (500 : Int)
          from by decide] at hp
      injection hp with hp'
      subst hp'
      decide)
    (by decide) (by decide)

end PopGen
